import Mathlib

set_option maxRecDepth 10000

/-!
Shallow embedding of the RSP vector coprocessor (COP2) of this repository,
translated from `src/sp/cop2.rs`.

Representation choices:
* A `VectorReg` is modelled at the architectural lane level: 8 lanes of
  16 bits, lane 0 most significant (the source stores the 16 bytes
  little-endian so that `lane(i)` reads storage bytes `(7-i)*2..`; the
  lane-level view is exactly what every SSE intrinsic in the source
  operates on).  Lane values are `Nat` and every operation that the
  source performs on `u16` data applies `% 65536` exactly where the Rust
  types wrap or truncate.
* The 128-bit view `u128()` used by the load/store family is
  `vecToU128`/`vecOfU128` below; byte index `i` of the architectural
  view is byte `15 - i` of the storage, i.e. the high byte of lane
  `i / 2` when `i` is even.
* The SSE intrinsics (`_mm_adds_epi16`, `_mm_cmpeq_epi16`, ...) are given
  their documented lane-wise semantics as 16-bit operations.
-/

abbrev VectorReg := Fin 8 → Nat

def fin8 (n : Nat) : Fin 8 := ⟨n % 8, Nat.mod_lt _ (by omega)⟩

def fin32 (n : Nat) : Fin 32 := ⟨n % 32, Nat.mod_lt _ (by omega)⟩

def fin3 (n : Nat) : Fin 3 := ⟨n % 3, Nat.mod_lt _ (by omega)⟩

/-- `VectorReg::lane` (indices used by the source are already in `0..8`;
the `% 8` inside `fin8` realises the in-bounds array access). -/
def getLane (r : VectorReg) (i : Nat) : Nat := r (fin8 i)

/-- `VectorReg::setlane`. -/
def setLane (r : VectorReg) (i : Nat) (v : Nat) : VectorReg :=
  fun j => if j = fin8 i then v else r j

/-- `VectorReg::byte`: architectural byte `i` is the high byte of lane
`i / 2` for even `i` and the low byte for odd `i`. -/
def getByte (r : VectorReg) (i : Nat) : Nat :=
  if i % 2 = 0 then getLane r (i / 2) / 256 % 256 else getLane r (i / 2) % 256

/-- `VectorReg::setbyte`. -/
def setByte (r : VectorReg) (i : Nat) (b : Nat) : VectorReg :=
  if i % 2 = 0 then setLane r (i / 2) (b * 256 + getLane r (i / 2) % 256)
  else setLane r (i / 2) (getLane r (i / 2) / 256 % 256 * 256 + b)

/-- `VectorReg::u128`: the 128-bit little-endian storage read; lane 0 is
most significant. -/
def vecToU128 (r : VectorReg) : Nat :=
  r 0 * 2 ^ 112 + r 1 * 2 ^ 96 + r 2 * 2 ^ 80 + r 3 * 2 ^ 64 +
  r 4 * 2 ^ 48 + r 5 * 2 ^ 32 + r 6 * 2 ^ 16 + r 7

/-- `VectorReg::setu128`. -/
def vecOfU128 (m : Nat) : VectorReg :=
  fun i => m / 2 ^ (16 * (7 - i.val)) % 65536

/-- `_mm_setzero_si128` / `_mm_set1_epi16`. -/
def vconst (x : Nat) : VectorReg := fun _ => x

def vmap2 (f : Nat → Nat → Nat) (a b : VectorReg) : VectorReg :=
  fun i => f (a i) (b i)

/-! 16-bit lane arithmetic (semantics of the SSE intrinsics used). -/

/-- Signed reading of a 16-bit lane. -/
def toS16 (x : Nat) : Int := if x % 65536 < 32768 then (x % 65536 : Int) else (x % 65536 : Int) - 65536

/-- 16-bit two's-complement bit pattern of an integer. -/
def i16ofInt (v : Int) : Nat := (v % 65536).toNat

/-- Signed saturation to `[-0x8000, 0x7FFF]`. -/
def satS (v : Int) : Int := if v < -32768 then -32768 else if v > 32767 then 32767 else v

/-- `_mm_adds_epi16`. -/
def addsS (x y : Nat) : Nat := i16ofInt (satS (toS16 x + toS16 y))

/-- `_mm_subs_epi16`. -/
def subsS (x y : Nat) : Nat := i16ofInt (satS (toS16 x - toS16 y))

/-- `_mm_add_epi16` (wrapping). -/
def addWrap16 (x y : Nat) : Nat := (x + y) % 65536

/-- `_mm_sub_epi16` (wrapping). -/
def subWrap16 (x y : Nat) : Nat := (x % 65536 + 65536 - y % 65536) % 65536

/-- `_mm_min_epi16`. -/
def minS (x y : Nat) : Nat := if toS16 x ≤ toS16 y then x % 65536 else y % 65536

/-- `_mm_max_epi16`. -/
def maxS (x y : Nat) : Nat := if toS16 x ≤ toS16 y then y % 65536 else x % 65536

/-- `_mm_cmpeq_epi16`. -/
def cmpeq16 (x y : Nat) : Nat := if x % 65536 = y % 65536 then 65535 else 0

/-- `_mm_cmpgt_epi16`. -/
def cmpgtS (x y : Nat) : Nat := if toS16 y < toS16 x then 65535 else 0

/-- `_mm_adds_epu16`. -/
def addsU (x y : Nat) : Nat := min (x % 65536 + y % 65536) 65535

/-- `_mm_sign_epi16 (vt, vs)`: negate (wrapping), zero, or pass `vt`
according to the sign of `vs`. -/
def sign16 (vt vs : Nat) : Nat :=
  if toS16 vs < 0 then i16ofInt (0 - toS16 vt)
  else if vs % 65536 = 0 then 0 else vt % 65536

/-! Element broadcast (`Vectorop::vte`).

The SSE shuffles act on the little-endian 128-bit storage view, whose
16-bit word `w` is architectural lane `7 - w`.  `shufLo`/`shufHi` are
`_mm_shufflelo_epi16`/`_mm_shufflehi_epi16` on that word view. -/

def toWords (v : VectorReg) : Fin 8 → Nat := fun w => v (fin8 (7 - w.val))

def ofWords (w : Fin 8 → Nat) : VectorReg := fun i => w (fin8 (7 - i.val))

def shufLo (imm : Nat) (w : Fin 8 → Nat) : Fin 8 → Nat :=
  fun j => if j.val < 4 then w (fin8 ((imm >>> (2 * j.val)) &&& 3)) else w j

def shufHi (imm : Nat) (w : Fin 8 → Nat) : Fin 8 → Nat :=
  fun j => if j.val < 4 then w j else w (fin8 (4 + ((imm >>> (2 * (j.val - 4))) &&& 3)))

/-- `Vectorop::vte`: element broadcast of the second operand.  The
immediates are the ones in the source (`0b11_11_01_01 = 0xF5`, ...).
The final `else v` arm corresponds to the source's unreachable case
(`e` is a 4-bit field, so `e < 16` always holds at call sites). -/
def vte (v : VectorReg) (e : Nat) : VectorReg :=
  if e < 2 then v
  else if e = 2 then ofWords (shufHi 0xF5 (shufLo 0xF5 (toWords v)))
  else if e = 3 then ofWords (shufHi 0xA0 (shufLo 0xA0 (toWords v)))
  else if e = 4 then ofWords (shufHi 0xFF (shufLo 0xFF (toWords v)))
  else if e = 5 then ofWords (shufHi 0xAA (shufLo 0xAA (toWords v)))
  else if e = 6 then ofWords (shufHi 0x55 (shufLo 0x55 (toWords v)))
  else if e = 7 then ofWords (shufHi 0x00 (shufLo 0x00 (toWords v)))
  else if e < 16 then vconst (getLane v (e - 8))
  else v

/-- Concrete register used to exhibit the `vte` counterexample:
lane `i` holds the value `i`. -/
def vteSample : VectorReg := fun i => i.val

/-- Claim C5 as stated is false: for `e = 4` the broadcast takes lane 0
of each half (the most-significant lane of the half), not lane 3; here
lane 0 of the result is `vteSample` lane 0 (`= 0`), not lane 3 (`= 3`). -/
theorem vte_e4_not_half_lane3 :
    getLane (vte vteSample 4) 0 ≠ getLane vteSample 3 := by decide

/-- Claim C5, amended: for `e ∈ {4,5,6,7}` each 4-lane half of the result
broadcasts half-lane `e - 4` of `vt` (half-lane 0 being the
most-significant lane of the half): result lane `i` is `vt` lane
`(i / 4) * 4 + (e - 4)`. -/
theorem vte_half_broadcast (v : VectorReg) (i : Fin 8) :
    getLane (vte v 4) i.val = getLane v (i.val / 4 * 4)
  ∧ getLane (vte v 5) i.val = getLane v (i.val / 4 * 4 + 1)
  ∧ getLane (vte v 6) i.val = getLane v (i.val / 4 * 4 + 2)
  ∧ getLane (vte v 7) i.val = getLane v (i.val / 4 * 4 + 3) := by
  fin_cases i <;> exact ⟨rfl, rfl, rfl, rfl⟩

/-! The coprocessor context (`SpCop2Context`). -/

structure SpCop2Context where
  vregs : Fin 32 → VectorReg
  accum : Fin 3 → VectorReg
  vco_carry : VectorReg
  vco_ne : VectorReg
  vce : VectorReg
  vcc_normal : VectorReg
  vcc_clip : VectorReg
  div_in : Option Nat
  div_out : Nat

/-- `SpCop2Context::vce()`: pack bit 0 of each VCE lane into a `u8`
(the source's `res |= ((lane & 1) << i) as u8` loop, unrolled). -/
def vceGet (c : SpCop2Context) : Nat :=
  (c.vce 0 &&& 1) ||| ((c.vce 1 &&& 1) <<< 1) ||| ((c.vce 2 &&& 1) <<< 2) |||
  ((c.vce 3 &&& 1) <<< 3) ||| ((c.vce 4 &&& 1) <<< 4) ||| ((c.vce 5 &&& 1) <<< 5) |||
  ((c.vce 6 &&& 1) <<< 6) ||| ((c.vce 7 &&& 1) <<< 7)

/-- `SpCop2Context::set_vce`. -/
def set_vce (c : SpCop2Context) (v : Nat) : SpCop2Context :=
  { c with vce := fun i => if (v >>> i.val) &&& 1 ≠ 0 then 65535 else 0 }

/-- `SpCop2Context::vcc()`: bits `0..8` from `vcc_normal`, bits `8..16`
from `vcc_clip`. -/
def vccGet (c : SpCop2Context) : Nat :=
  (c.vcc_normal 0 &&& 1) ||| ((c.vcc_normal 1 &&& 1) <<< 1) |||
  ((c.vcc_normal 2 &&& 1) <<< 2) ||| ((c.vcc_normal 3 &&& 1) <<< 3) |||
  ((c.vcc_normal 4 &&& 1) <<< 4) ||| ((c.vcc_normal 5 &&& 1) <<< 5) |||
  ((c.vcc_normal 6 &&& 1) <<< 6) ||| ((c.vcc_normal 7 &&& 1) <<< 7) |||
  ((c.vcc_clip 0 &&& 1) <<< 8) ||| ((c.vcc_clip 1 &&& 1) <<< 9) |||
  ((c.vcc_clip 2 &&& 1) <<< 10) ||| ((c.vcc_clip 3 &&& 1) <<< 11) |||
  ((c.vcc_clip 4 &&& 1) <<< 12) ||| ((c.vcc_clip 5 &&& 1) <<< 13) |||
  ((c.vcc_clip 6 &&& 1) <<< 14) ||| ((c.vcc_clip 7 &&& 1) <<< 15)

/-- `SpCop2Context::set_vcc`. -/
def set_vcc (c : SpCop2Context) (v : Nat) : SpCop2Context :=
  { c with
    vcc_normal := fun i => if (v >>> i.val) &&& 1 ≠ 0 then 65535 else 0,
    vcc_clip := fun i => if (v >>> (i.val + 8)) &&& 1 ≠ 0 then 65535 else 0 }

/-- `SpCop2Context::vco()`: bits `0..8` from `vco_carry`, bits `8..16`
from `vco_ne`. -/
def vcoGet (c : SpCop2Context) : Nat :=
  (c.vco_carry 0 &&& 1) ||| ((c.vco_carry 1 &&& 1) <<< 1) |||
  ((c.vco_carry 2 &&& 1) <<< 2) ||| ((c.vco_carry 3 &&& 1) <<< 3) |||
  ((c.vco_carry 4 &&& 1) <<< 4) ||| ((c.vco_carry 5 &&& 1) <<< 5) |||
  ((c.vco_carry 6 &&& 1) <<< 6) ||| ((c.vco_carry 7 &&& 1) <<< 7) |||
  ((c.vco_ne 0 &&& 1) <<< 8) ||| ((c.vco_ne 1 &&& 1) <<< 9) |||
  ((c.vco_ne 2 &&& 1) <<< 10) ||| ((c.vco_ne 3 &&& 1) <<< 11) |||
  ((c.vco_ne 4 &&& 1) <<< 12) ||| ((c.vco_ne 5 &&& 1) <<< 13) |||
  ((c.vco_ne 6 &&& 1) <<< 14) ||| ((c.vco_ne 7 &&& 1) <<< 15)

/-- `SpCop2Context::set_vco`. -/
def set_vco (c : SpCop2Context) (v : Nat) : SpCop2Context :=
  { c with
    vco_carry := fun i => if (v >>> i.val) &&& 1 ≠ 0 then 65535 else 0,
    vco_ne := fun i => if (v >>> (i.val + 8)) &&& 1 ≠ 0 then 65535 else 0 }

/-- A flag lane is legal when it is exactly `0x0000` or `0xFFFF`. -/
def laneMask (x : Nat) : Prop := x = 0 ∨ x = 65535

instance (x : Nat) : Decidable (laneMask x) := by unfold laneMask; infer_instance

def maskReg (r : VectorReg) : Prop := ∀ i, laneMask (r i)

/-- The documented flag invariant: every lane of every flag register is
`0x0000` or `0xFFFF`. -/
def flagsOK (c : SpCop2Context) : Prop :=
  maskReg c.vco_carry ∧ maskReg c.vco_ne ∧ maskReg c.vcc_normal ∧
  maskReg c.vcc_clip ∧ maskReg c.vce

/-! External kernels.

The modules `vmul`, `vclip` and `vrcp` used by `uop` are part of this
repository but are not under `src/`; only their call sites are.  They are
therefore kept abstract as parameters (`Kernels`), with the shapes their
call sites dictate.

Modelled from the spec: the clip kernels (`vclip::vcl/vch/vcr`,
spec 4.G) compute per-lane predicates (sign, `le`, `ge`, `vce`, ...);
the data model (spec 3) stores a predicate lane as `0xFFFF`/`0x0000`.
`ClipOut` therefore carries the predicates as `Bool` lanes and the
dispatcher stores their mask representation.  The multiply kernels
(spec 4.F) return `(vd, acc_lo, acc_md, acc_hi)` exactly as the
`op_vmul!` macro consumes them; `vrcp::vrcp`/`vrcp::vrsq` (spec 4.H)
map a 32-bit input to a 32-bit result. -/

structure ClipOut where
  res : VectorReg
  carry : Fin 8 → Bool
  ne : Fin 8 → Bool
  le : Fin 8 → Bool
  ge : Fin 8 → Bool
  vce : Fin 8 → Bool

/-- Mask representation of a predicate lane vector. -/
def boolMask (b : Fin 8 → Bool) : VectorReg := fun i => if b i then 65535 else 0

structure Kernels where
  vrcp : Nat → Nat
  vrsq : Nat → Nat
  vmulKernel : Nat → VectorReg → VectorReg → VectorReg → VectorReg → VectorReg →
    VectorReg × VectorReg × VectorReg × VectorReg
  vch : VectorReg → VectorReg → ClipOut
  vcr : VectorReg → VectorReg → ClipOut
  vcl : VectorReg → VectorReg → VectorReg → VectorReg → VectorReg → VectorReg →
    VectorReg → ClipOut

/-! Dispatcher result.  `breakHere` models `tracer.break_here(msg)` (the
dispatcher returns the tracer's error value unchanged); `rustPanic`
models the Rust `panic!`/`unimplemented!` macros, which unwind and do
not go through the tracer. -/

inductive VuResult where
  | ok : VuResult
  | breakHere : String → VuResult
  | rustPanic : String → VuResult
deriving DecidableEq

structure VuOut where
  res : VuResult
  ctx : SpCop2Context
  cpu : Fin 32 → Nat

/-! Opcode fields (`Vectorop`). -/

def opFunc (op : Nat) : Nat := op &&& 63

def opE (op : Nat) : Nat := (op >>> 21) &&& 15

def opRs (op : Nat) : Nat := (op >>> 11) &&& 31

def opRt (op : Nat) : Nat := (op >>> 16) &&& 31

def opRd (op : Nat) : Nat := (op >>> 6) &&& 31

def vsOf (c : SpCop2Context) (op : Nat) : VectorReg := c.vregs (fin32 (opRs op))

def vtOf (c : SpCop2Context) (op : Nat) : VectorReg := c.vregs (fin32 (opRt op))

def vteOf (c : SpCop2Context) (op : Nat) : VectorReg := vte (vtOf c op) (opE op)

def setvd (c : SpCop2Context) (op : Nat) (v : VectorReg) : SpCop2Context :=
  { c with vregs := Function.update c.vregs (fin32 (opRd op)) v }

def setvdLane (c : SpCop2Context) (op : Nat) (i v : Nat) : SpCop2Context :=
  { c with vregs :=
      Function.update c.vregs (fin32 (opRd op)) (setLane (c.vregs (fin32 (opRd op))) i v) }

def setaccum (c : SpCop2Context) (idx : Nat) (v : VectorReg) : SpCop2Context :=
  { c with accum := Function.update c.accum (fin3 idx) v }

/-- Sign extension of a `u16` to a 32-bit pattern (`Numerics::sx32`). -/
def sx32 (x : Nat) : Nat :=
  if x % 65536 < 32768 then x % 65536 else x % 65536 + 0xFFFF0000

/-- Sign extension of a `u16` to a 64-bit pattern (`Numerics::sx64`). -/
def sx64 (x : Nat) : Nat :=
  if x % 65536 < 32768 then x % 65536 else x % 65536 + 0xFFFFFFFFFFFF0000

/-! Bitwise vector helpers (the `_mm_and/or/xor/andnot_si128` intrinsics,
lane-wise; `_mm_xor_si128(x, vones)` is `bnotV`). -/

def bandV (a b : VectorReg) : VectorReg := vmap2 (fun x y => x &&& y) a b

def borV (a b : VectorReg) : VectorReg := vmap2 (fun x y => x ||| y) a b

def bxorV (a b : VectorReg) : VectorReg := vmap2 (fun x y => x ^^^ y) a b

def bnotV (a : VectorReg) : VectorReg := fun i => a i % 65536 ^^^ 65535

def andnotV (a b : VectorReg) : VectorReg := bandV (bnotV a) b

/-- `_mm_xor_si128(_mm_set1_epi16(0x8000), x)` lane-wise. -/
def flipSign16 (x : Nat) : Nat := 32768 ^^^ x % 65536

/-! The VU-ALU opcode arms of `SpCop2::uop`, one definition per `match`
arm of the source. -/

def vmulArm (K : Kernels) (c : SpCop2Context) (op : Nat) : SpCop2Context :=
  let r := K.vmulKernel (opFunc op) (vsOf c op) (vteOf c op) (c.accum 0) (c.accum 1) (c.accum 2)
  let c1 := setvd c op r.1
  let c2 := setaccum c1 0 r.2.1
  let c3 := setaccum c2 1 r.2.2.1
  setaccum c3 2 r.2.2.2

def vaddArm (c : SpCop2Context) (op : Nat) : SpCop2Context :=
  let vs := vsOf c op
  let vt := vteOf c op
  let carry := c.vco_carry
  let minv := vmap2 minS vs vt
  let maxv := vmap2 maxS vs vt
  let c1 := setvd c op (vmap2 addsS (vmap2 subsS minv carry) maxv)
  let c2 := setaccum c1 0 (vmap2 subWrap16 (vmap2 addWrap16 vs vt) carry)
  { c2 with vco_carry := vconst 0, vco_ne := vconst 0 }

def vsubArm (c : SpCop2Context) (op : Nat) : SpCop2Context :=
  let vs := vsOf c op
  let vt := vteOf c op
  let carry := c.vco_carry
  let diff := vmap2 subWrap16 vt carry
  let sdiff := vmap2 subsS vt carry
  let mask := vmap2 cmpgtS sdiff diff
  let c1 := setvd c op (vmap2 addsS (vmap2 subsS vs sdiff) mask)
  let c2 := setaccum c1 0 (vmap2 subWrap16 vs diff)
  { c2 with vco_carry := vconst 0, vco_ne := vconst 0 }

def vabsArm (c : SpCop2Context) (op : Nat) : SpCop2Context :=
  let res := vmap2 sign16 (vteOf c op) (vsOf c op)
  let c1 := setaccum c 0 res
  setvd c1 op res

def vaddcArm (c : SpCop2Context) (op : Nat) : SpCop2Context :=
  let vs := vsOf c op
  let vt := vteOf c op
  let res := vmap2 addWrap16 vs vt
  let c1 := setvd c op res
  let c2 := setaccum c1 0 res
  { c2 with
    vco_ne := vconst 0,
    vco_carry := vmap2 (fun a b => 65535 ^^^ cmpeq16 a b) res (vmap2 addsU vs vt) }

def vsubcArm (c : SpCop2Context) (op : Nat) : SpCop2Context :=
  let vs := vsOf c op
  let vt := vteOf c op
  let res := vmap2 subWrap16 vs vt
  let c1 := setvd c op res
  let c2 := setaccum c1 0 res
  { c2 with
    vco_carry := vmap2 cmpgtS (fun i => flipSign16 (vt i)) (fun i => flipSign16 (vs i)),
    vco_ne := vmap2 (fun a b => cmpeq16 a b ^^^ 65535) vs vt }

/-- VSUBB (0x17) and VSUCB (0x19) share this body in the source. -/
def vsubbArm (c : SpCop2Context) (op : Nat) : SpCop2Context :=
  let res := vmap2 addWrap16 (vsOf c op) (vteOf c op)
  let c1 := setvd c op (vconst 0)
  setaccum c1 0 res

def vltArm (c : SpCop2Context) (op : Nat) : SpCop2Context :=
  let vs := vsOf c op
  let vt := vteOf c op
  let vcc := borV (vmap2 cmpgtS vt vs) (bandV c.vco_ne (bandV c.vco_carry (vmap2 cmpeq16 vs vt)))
  let res := borV (bandV vcc vs) (andnotV vcc vt)
  let c1 := setaccum c 0 res
  let c2 := setvd c1 op res
  { c2 with vcc_normal := vcc, vcc_clip := vconst 0, vco_carry := vconst 0, vco_ne := vconst 0 }

def veqArm (c : SpCop2Context) (op : Nat) : SpCop2Context :=
  let vs := vsOf c op
  let vt := vteOf c op
  let vcc := andnotV c.vco_ne (vmap2 cmpeq16 vs vt)
  let res := borV (bandV vcc vs) (andnotV vcc vt)
  let c1 := setaccum c 0 res
  let c2 := setvd c1 op res
  { c2 with vcc_normal := vcc, vcc_clip := vconst 0, vco_carry := vconst 0, vco_ne := vconst 0 }

/-- VNE (0x22).  Note: the select in the source uses the raw `op.vt()`
(not the broadcast `vte`) for the else-value, and so does this
translation. -/
def vneArm (c : SpCop2Context) (op : Nat) : SpCop2Context :=
  let vs := vsOf c op
  let vt := vteOf c op
  let vcc := borV (borV (vmap2 cmpgtS vt vs) (vmap2 cmpgtS vs vt))
    (bandV c.vco_ne (vmap2 cmpeq16 vs vt))
  let res := borV (bandV vcc (vsOf c op)) (andnotV vcc (vtOf c op))
  let c1 := setaccum c 0 res
  let c2 := setvd c1 op res
  { c2 with vcc_normal := vcc, vcc_clip := vconst 0, vco_carry := vconst 0, vco_ne := vconst 0 }

def vgeArm (c : SpCop2Context) (op : Nat) : SpCop2Context :=
  let vs := vsOf c op
  let vt := vteOf c op
  let vcc := borV (vmap2 cmpgtS vs vt)
    (andnotV (bandV c.vco_carry c.vco_ne) (vmap2 cmpeq16 vs vt))
  let res := borV (bandV vcc vs) (andnotV vcc vt)
  let c1 := setaccum c 0 res
  let c2 := setvd c1 op res
  { c2 with vcc_normal := vcc, vcc_clip := vconst 0, vco_carry := vconst 0, vco_ne := vconst 0 }

def vclArm (K : Kernels) (c : SpCop2Context) (op : Nat) : SpCop2Context :=
  let o := K.vcl (vsOf c op) (vteOf c op) c.vco_carry c.vco_ne c.vcc_normal c.vcc_clip c.vce
  let c1 := setvd c op o.res
  let c2 := setaccum c1 0 o.res
  { c2 with
    vcc_normal := boolMask o.le, vcc_clip := boolMask o.ge,
    vce := boolMask o.vce, vco_carry := boolMask o.carry, vco_ne := boolMask o.ne }

def vchArm (K : Kernels) (c : SpCop2Context) (op : Nat) : SpCop2Context :=
  let o := K.vch (vsOf c op) (vteOf c op)
  let c1 := setvd c op o.res
  let c2 := setaccum c1 0 o.res
  { c2 with
    vcc_normal := boolMask o.le, vcc_clip := boolMask o.ge,
    vce := boolMask o.vce, vco_carry := boolMask o.carry, vco_ne := boolMask o.ne }

def vcrArm (K : Kernels) (c : SpCop2Context) (op : Nat) : SpCop2Context :=
  let o := K.vcr (vsOf c op) (vteOf c op)
  let c1 := setvd c op o.res
  let c2 := setaccum c1 0 o.res
  { c2 with
    vcc_normal := boolMask o.le, vcc_clip := boolMask o.ge,
    vce := boolMask o.vce, vco_carry := boolMask o.carry, vco_ne := boolMask o.ne }

def vmrgArm (c : SpCop2Context) (op : Nat) : SpCop2Context :=
  let vs := vsOf c op
  let vt := vteOf c op
  let vcc := c.vcc_normal
  let res := borV (bandV vcc vs) (andnotV vcc vt)
  let c1 := setvd c op res
  let c2 := setaccum c1 0 res
  { c2 with vco_ne := vconst 0, vco_carry := vconst 0 }

def logicArm (f : VectorReg → VectorReg → VectorReg) (c : SpCop2Context) (op : Nat) :
    SpCop2Context :=
  let res := f (vsOf c op) (vteOf c op)
  let c1 := setvd c op res
  setaccum c1 0 res

/-! The scalar-lane reciprocal/move family (0x30..0x36).  In the source
each arm writes lane `rs & 7` of vd, then stores the raw `op.vt()` into
`accum.lo` (read after the vd write), and updates the div latches. -/

def vrcpArm (K : Kernels) (c : SpCop2Context) (op : Nat) : SpCop2Context :=
  let x := getLane (vtOf c op) (opE op &&& 7)
  let r := K.vrcp (sx32 x)
  let c1 := setvdLane c op (opRs op &&& 7) (r % 65536)
  let c2 := setaccum c1 0 (vtOf c1 op)
  { c2 with div_out := r }

def vrcplArm (K : Kernels) (c : SpCop2Context) (op : Nat) : SpCop2Context :=
  let x := getLane (vtOf c op) (opE op &&& 7)
  let r := match c.div_in with
    | some d => K.vrcp (x ||| d)
    | none => K.vrcp (sx32 x)
  let c1 := setvdLane c op (opRs op &&& 7) (r % 65536)
  let c2 := setaccum c1 0 (vtOf c1 op)
  { c2 with div_out := r, div_in := none }

def vrcphArm (c : SpCop2Context) (op : Nat) : SpCop2Context :=
  let x := getLane (vtOf c op) (opE op &&& 7)
  let c1 := setvdLane c op (opRs op &&& 7) ((c.div_out >>> 16) % 65536)
  let c2 := setaccum c1 0 (vtOf c1 op)
  { c2 with div_in := some (x <<< 16) }

def vmovArm (c : SpCop2Context) (op : Nat) : SpCop2Context :=
  let se :=
    if opE op ≤ 1 then opRs op &&& 7
    else if opE op ≤ 3 then (opE op &&& 1) ||| (opRs op &&& 6)
    else if opE op ≤ 7 then (opE op &&& 3) ||| (opRs op &&& 4)
    else opE op &&& 7
  let r := getLane (vtOf c op) se
  let c1 := setvdLane c op (opRs op &&& 7) r
  setaccum c1 0 (vtOf c1 op)

def vrsqArm (K : Kernels) (c : SpCop2Context) (op : Nat) : SpCop2Context :=
  let x := getLane (vtOf c op) (opE op &&& 7)
  let r := K.vrsq (sx32 x)
  let c1 := setvdLane c op (opRs op &&& 7) (r % 65536)
  let c2 := setaccum c1 0 (vtOf c1 op)
  { c2 with div_out := r }

def vrsqlArm (K : Kernels) (c : SpCop2Context) (op : Nat) : SpCop2Context :=
  let x := getLane (vtOf c op) (opE op &&& 7)
  let r := match c.div_in with
    | some d => K.vrsq (x ||| d)
    | none => K.vrsq (sx32 x)
  let c1 := setvdLane c op (opRs op &&& 7) (r % 65536)
  let c2 := setaccum c1 0 (vtOf c1 op)
  { c2 with div_out := r, div_in := none }

def vrsqhArm (c : SpCop2Context) (op : Nat) : SpCop2Context :=
  let x := getLane (vtOf c op) (opE op &&& 7)
  let c1 := setvdLane c op (opRs op &&& 7) ((c.div_out >>> 16) % 65536)
  let c2 := setaccum c1 0 (vtOf c1 op)
  { c2 with div_in := some (x <<< 16) }

/-! The scalar-transfer arms. -/

def mfc2 (c : SpCop2Context) (cpu : Fin 32 → Nat) (op : Nat) : Fin 32 → Nat :=
  let e := opRd op >>> 1
  let v := ((getByte (vsOf c op) e) <<< 8) ||| getByte (vsOf c op) ((e + 1) &&& 15)
  Function.update cpu (fin32 (opRt op)) (sx64 v)

def mtc2 (c : SpCop2Context) (cpu : Fin 32 → Nat) (op : Nat) : SpCop2Context :=
  let e := opRd op >>> 1
  let r := setByte (vsOf c op) e ((cpu (fin32 (opRt op)) >>> 8) % 256)
  let r2 := if e ≠ 15 then setByte r (e + 1) (cpu (fin32 (opRt op)) % 256) else r
  { c with vregs := Function.update c.vregs (fin32 (opRs op)) r2 }

def cfc2 (c : SpCop2Context) (cpu : Fin 32 → Nat) (op : Nat) : VuOut :=
  if opRs op = 0 then ⟨.ok, c, Function.update cpu (fin32 (opRt op)) (sx64 (vcoGet c))⟩
  else if opRs op = 1 then ⟨.ok, c, Function.update cpu (fin32 (opRt op)) (sx64 (vccGet c))⟩
  else if opRs op = 2 then ⟨.ok, c, Function.update cpu (fin32 (opRt op)) (vceGet c)⟩
  else ⟨.rustPanic "unimplement COP2 CFC2 reg", c, cpu⟩

def ctc2 (c : SpCop2Context) (cpu : Fin 32 → Nat) (op : Nat) : VuOut :=
  if opRs op = 0 then ⟨.ok, set_vco c (cpu (fin32 (opRt op)) % 65536), cpu⟩
  else if opRs op = 1 then ⟨.ok, set_vcc c (cpu (fin32 (opRt op)) % 65536), cpu⟩
  else if opRs op = 2 then ⟨.ok, set_vce c (cpu (fin32 (opRt op)) % 256), cpu⟩
  else ⟨.rustPanic "unimplement COP2 CTC2 reg", c, cpu⟩

/-- `SpCop2::uop`: the full dispatcher.  Bit 25 selects the VU-ALU
branch; otherwise the scalar-transfer branch dispatches on `e`. -/
def uop (K : Kernels) (c : SpCop2Context) (cpu : Fin 32 → Nat) (op : Nat) : VuOut :=
  if op &&& 33554432 ≠ 0 then
    if opFunc op = 0 ∨ opFunc op = 1 ∨ opFunc op = 4 ∨ opFunc op = 5 ∨ opFunc op = 6 ∨ opFunc op = 7 ∨ opFunc op = 8 ∨ opFunc op = 9 ∨ opFunc op = 12 ∨
        opFunc op = 13 ∨ opFunc op = 14 ∨ opFunc op = 15 then ⟨.ok, vmulArm K c op, cpu⟩
    else if opFunc op = 16 then ⟨.ok, vaddArm c op, cpu⟩
    else if opFunc op = 17 then ⟨.ok, vsubArm c op, cpu⟩
    else if opFunc op = 19 then ⟨.ok, vabsArm c op, cpu⟩
    else if opFunc op = 20 then ⟨.ok, vaddcArm c op, cpu⟩
    else if opFunc op = 21 then ⟨.ok, vsubcArm c op, cpu⟩
    else if opFunc op = 23 then ⟨.ok, vsubbArm c op, cpu⟩
    else if opFunc op = 25 then ⟨.ok, vsubbArm c op, cpu⟩
    else if opFunc op = 29 then
      if opE op ≤ 2 then ⟨.ok, setvd c op (vconst 0), cpu⟩
      else if 8 ≤ opE op ∧ opE op ≤ 10 then
        ⟨.ok, setvd c op (c.accum (fin3 (2 - (opE op - 8)))), cpu⟩
      else ⟨.rustPanic "not implemented", c, cpu⟩
    else if opFunc op = 32 then ⟨.ok, vltArm c op, cpu⟩
    else if opFunc op = 33 then ⟨.ok, veqArm c op, cpu⟩
    else if opFunc op = 34 then ⟨.ok, vneArm c op, cpu⟩
    else if opFunc op = 35 then ⟨.ok, vgeArm c op, cpu⟩
    else if opFunc op = 36 then ⟨.ok, vclArm K c op, cpu⟩
    else if opFunc op = 37 then ⟨.ok, vchArm K c op, cpu⟩
    else if opFunc op = 38 then ⟨.ok, vcrArm K c op, cpu⟩
    else if opFunc op = 39 then ⟨.ok, vmrgArm c op, cpu⟩
    else if opFunc op = 40 then ⟨.ok, logicArm bandV c op, cpu⟩
    else if opFunc op = 41 then ⟨.ok, logicArm (fun a b => bnotV (bandV a b)) c op, cpu⟩
    else if opFunc op = 42 then ⟨.ok, logicArm borV c op, cpu⟩
    else if opFunc op = 43 then ⟨.ok, logicArm (fun a b => bnotV (borV a b)) c op, cpu⟩
    else if opFunc op = 44 then ⟨.ok, logicArm bxorV c op, cpu⟩
    else if opFunc op = 45 then ⟨.ok, logicArm (fun a b => bnotV (bxorV a b)) c op, cpu⟩
    else if opFunc op = 48 then ⟨.ok, vrcpArm K c op, cpu⟩
    else if opFunc op = 49 then ⟨.ok, vrcplArm K c op, cpu⟩
    else if opFunc op = 50 then ⟨.ok, vrcphArm c op, cpu⟩
    else if opFunc op = 51 then ⟨.ok, vmovArm c op, cpu⟩
    else if opFunc op = 52 then ⟨.ok, vrsqArm K c op, cpu⟩
    else if opFunc op = 53 then ⟨.ok, vrsqlArm K c op, cpu⟩
    else if opFunc op = 54 then ⟨.ok, vrsqhArm c op, cpu⟩
    else if opFunc op = 55 then ⟨.ok, c, cpu⟩
    else if opFunc op = 63 then ⟨.ok, c, cpu⟩
    else ⟨.rustPanic "unimplemented COP2 VU opcode", c, cpu⟩
  else
    if opE op = 0 then ⟨.ok, c, mfc2 c cpu op⟩
    else if opE op = 2 then cfc2 c cpu op
    else if opE op = 4 then ⟨.ok, mtc2 c cpu op, cpu⟩
    else if opE op = 6 then ctc2 c cpu op
    else ⟨.breakHere "unimplemented COP2 non-VU opcode", c, cpu⟩

/-! `Cop::reg` / `Cop::set_reg`: the external register-file interface.
An index `≥ 38` makes the source panic on the `vregs` array access; the
final `else` branches stand for that unreachable case. -/

def regGet (c : SpCop2Context) (idx : Nat) : Nat :=
  if idx = 32 then vcoGet c
  else if idx = 33 then vccGet c
  else if idx = 34 then vceGet c
  else if idx = 35 then vecToU128 (c.accum 0)
  else if idx = 36 then vecToU128 (c.accum 1)
  else if idx = 37 then vecToU128 (c.accum 2)
  else if h : idx < 32 then vecToU128 (c.vregs ⟨idx, h⟩)
  else 0

def set_reg (c : SpCop2Context) (idx val : Nat) : SpCop2Context :=
  if idx = 32 then set_vco c (val % 65536)
  else if idx = 33 then set_vcc c (val % 65536)
  else if idx = 34 then set_vce c (val % 256)
  else if idx = 35 then { c with accum := Function.update c.accum 0 (vecOfU128 val) }
  else if idx = 36 then { c with accum := Function.update c.accum 1 (vecOfU128 val) }
  else if idx = 37 then { c with accum := Function.update c.accum 2 (vecOfU128 val) }
  else if h : idx < 32 then { c with vregs := Function.update c.vregs ⟨idx, h⟩ (vecOfU128 val) }
  else c

/-! Flag-lane mask lemmas (claim C1). -/

theorem laneMask_vconst0 : maskReg (vconst 0) := fun _ => Or.inl rfl

theorem laneMask_cmpeq (x y : Nat) : laneMask (cmpeq16 x y) := by
  unfold cmpeq16 laneMask; split <;> simp

theorem laneMask_cmpgt (x y : Nat) : laneMask (cmpgtS x y) := by
  unfold cmpgtS laneMask; split <;> simp

theorem laneMask_and {x y : Nat} (hx : laneMask x) (hy : laneMask y) : laneMask (x &&& y) := by
  rcases hx with rfl | rfl <;> rcases hy with rfl | rfl <;> decide

theorem laneMask_or {x y : Nat} (hx : laneMask x) (hy : laneMask y) : laneMask (x ||| y) := by
  rcases hx with rfl | rfl <;> rcases hy with rfl | rfl <;> decide

theorem laneMask_xorl {x : Nat} (hx : laneMask x) : laneMask (65535 ^^^ x) := by
  rcases hx with rfl | rfl <;> decide

theorem laneMask_xorr {x : Nat} (hx : laneMask x) : laneMask (x ^^^ 65535) := by
  rcases hx with rfl | rfl <;> decide

theorem maskReg_cmpeqV (a b : VectorReg) : maskReg (vmap2 cmpeq16 a b) :=
  fun i => laneMask_cmpeq (a i) (b i)

theorem maskReg_cmpgtV (a b : VectorReg) : maskReg (vmap2 cmpgtS a b) :=
  fun i => laneMask_cmpgt (a i) (b i)

theorem maskReg_bandV {a b : VectorReg} (ha : maskReg a) (hb : maskReg b) :
    maskReg (bandV a b) := fun i => laneMask_and (ha i) (hb i)

theorem maskReg_borV {a b : VectorReg} (ha : maskReg a) (hb : maskReg b) :
    maskReg (borV a b) := fun i => laneMask_or (ha i) (hb i)

theorem maskReg_andnotV {a b : VectorReg} (ha : maskReg a) (hb : maskReg b) :
    maskReg (andnotV a b) := by
  intro i
  refine laneMask_and ?_ (hb i)
  have := ha i
  rcases this with h0 | h1
  · unfold bnotV; rw [h0]; decide
  · unfold bnotV; rw [h1]; decide

theorem maskReg_boolMask (b : Fin 8 → Bool) : maskReg (boolMask b) := by
  intro i; unfold boolMask laneMask; split <;> simp

theorem maskReg_ifmask (v : Nat) (f : Fin 8 → Nat) :
    maskReg (fun i => if (v >>> f i) &&& 1 ≠ 0 then 65535 else 0) := by
  intro i; dsimp only; split <;> simp [laneMask]

/-! Per-arm preservation of the flag invariant. -/

theorem flagsOK_vmulArm (K : Kernels) (c : SpCop2Context) (op : Nat) (h : flagsOK c) :
    flagsOK (vmulArm K c op) := h

theorem flagsOK_vaddArm (c : SpCop2Context) (op : Nat) (h : flagsOK c) :
    flagsOK (vaddArm c op) :=
  ⟨laneMask_vconst0, laneMask_vconst0, h.2.2.1, h.2.2.2.1, h.2.2.2.2⟩

theorem flagsOK_vsubArm (c : SpCop2Context) (op : Nat) (h : flagsOK c) :
    flagsOK (vsubArm c op) :=
  ⟨laneMask_vconst0, laneMask_vconst0, h.2.2.1, h.2.2.2.1, h.2.2.2.2⟩

theorem flagsOK_vabsArm (c : SpCop2Context) (op : Nat) (h : flagsOK c) :
    flagsOK (vabsArm c op) := h

theorem flagsOK_vaddcArm (c : SpCop2Context) (op : Nat) (h : flagsOK c) :
    flagsOK (vaddcArm c op) :=
  ⟨fun _ => laneMask_xorl (laneMask_cmpeq _ _), laneMask_vconst0,
    h.2.2.1, h.2.2.2.1, h.2.2.2.2⟩

theorem flagsOK_vsubcArm (c : SpCop2Context) (op : Nat) (h : flagsOK c) :
    flagsOK (vsubcArm c op) :=
  ⟨fun _ => laneMask_cmpgt _ _, fun _ => laneMask_xorr (laneMask_cmpeq _ _),
    h.2.2.1, h.2.2.2.1, h.2.2.2.2⟩

theorem flagsOK_vsubbArm (c : SpCop2Context) (op : Nat) (h : flagsOK c) :
    flagsOK (vsubbArm c op) := h

theorem flagsOK_vltArm (c : SpCop2Context) (op : Nat) (h : flagsOK c) :
    flagsOK (vltArm c op) :=
  ⟨laneMask_vconst0, laneMask_vconst0,
    maskReg_borV (maskReg_cmpgtV _ _)
      (maskReg_bandV h.2.1 (maskReg_bandV h.1 (maskReg_cmpeqV _ _))),
    laneMask_vconst0, h.2.2.2.2⟩

theorem flagsOK_veqArm (c : SpCop2Context) (op : Nat) (h : flagsOK c) :
    flagsOK (veqArm c op) :=
  ⟨laneMask_vconst0, laneMask_vconst0,
    maskReg_andnotV h.2.1 (maskReg_cmpeqV _ _), laneMask_vconst0, h.2.2.2.2⟩

theorem flagsOK_vneArm (c : SpCop2Context) (op : Nat) (h : flagsOK c) :
    flagsOK (vneArm c op) :=
  ⟨laneMask_vconst0, laneMask_vconst0,
    maskReg_borV (maskReg_borV (maskReg_cmpgtV _ _) (maskReg_cmpgtV _ _))
      (maskReg_bandV h.2.1 (maskReg_cmpeqV _ _)),
    laneMask_vconst0, h.2.2.2.2⟩

theorem flagsOK_vgeArm (c : SpCop2Context) (op : Nat) (h : flagsOK c) :
    flagsOK (vgeArm c op) :=
  ⟨laneMask_vconst0, laneMask_vconst0,
    maskReg_borV (maskReg_cmpgtV _ _)
      (maskReg_andnotV (maskReg_bandV h.1 h.2.1) (maskReg_cmpeqV _ _)),
    laneMask_vconst0, h.2.2.2.2⟩

theorem flagsOK_vclArm (K : Kernels) (c : SpCop2Context) (op : Nat) :
    flagsOK (vclArm K c op) :=
  ⟨maskReg_boolMask _, maskReg_boolMask _, maskReg_boolMask _,
    maskReg_boolMask _, maskReg_boolMask _⟩

theorem flagsOK_vchArm (K : Kernels) (c : SpCop2Context) (op : Nat) :
    flagsOK (vchArm K c op) :=
  ⟨maskReg_boolMask _, maskReg_boolMask _, maskReg_boolMask _,
    maskReg_boolMask _, maskReg_boolMask _⟩

theorem flagsOK_vcrArm (K : Kernels) (c : SpCop2Context) (op : Nat) :
    flagsOK (vcrArm K c op) :=
  ⟨maskReg_boolMask _, maskReg_boolMask _, maskReg_boolMask _,
    maskReg_boolMask _, maskReg_boolMask _⟩

theorem flagsOK_vmrgArm (c : SpCop2Context) (op : Nat) (h : flagsOK c) :
    flagsOK (vmrgArm c op) :=
  ⟨laneMask_vconst0, laneMask_vconst0, h.2.2.1, h.2.2.2.1, h.2.2.2.2⟩

theorem flagsOK_logicArm (f : VectorReg → VectorReg → VectorReg) (c : SpCop2Context)
    (op : Nat) (h : flagsOK c) : flagsOK (logicArm f c op) := h

theorem flagsOK_vrcpArm (K : Kernels) (c : SpCop2Context) (op : Nat) (h : flagsOK c) :
    flagsOK (vrcpArm K c op) := h

theorem flagsOK_vrcplArm (K : Kernels) (c : SpCop2Context) (op : Nat) (h : flagsOK c) :
    flagsOK (vrcplArm K c op) := by
  unfold vrcplArm
  rcases c.div_in with _ | d <;> exact h

theorem flagsOK_vrcphArm (c : SpCop2Context) (op : Nat) (h : flagsOK c) :
    flagsOK (vrcphArm c op) := h

theorem flagsOK_vmovArm (c : SpCop2Context) (op : Nat) (h : flagsOK c) :
    flagsOK (vmovArm c op) := h

theorem flagsOK_vrsqArm (K : Kernels) (c : SpCop2Context) (op : Nat) (h : flagsOK c) :
    flagsOK (vrsqArm K c op) := h

theorem flagsOK_vrsqlArm (K : Kernels) (c : SpCop2Context) (op : Nat) (h : flagsOK c) :
    flagsOK (vrsqlArm K c op) := by
  unfold vrsqlArm
  rcases c.div_in with _ | d <;> exact h

theorem flagsOK_vrsqhArm (c : SpCop2Context) (op : Nat) (h : flagsOK c) :
    flagsOK (vrsqhArm c op) := h

theorem flagsOK_setvd (c : SpCop2Context) (op : Nat) (v : VectorReg) (h : flagsOK c) :
    flagsOK (setvd c op v) := h

theorem flagsOK_set_vco (c : SpCop2Context) (v : Nat) (h : flagsOK c) :
    flagsOK (set_vco c v) :=
  ⟨maskReg_ifmask v _, maskReg_ifmask v _, h.2.2.1, h.2.2.2.1, h.2.2.2.2⟩

theorem flagsOK_set_vcc (c : SpCop2Context) (v : Nat) (h : flagsOK c) :
    flagsOK (set_vcc c v) :=
  ⟨h.1, h.2.1, maskReg_ifmask v _, maskReg_ifmask v _, h.2.2.2.2⟩

theorem flagsOK_set_vce (c : SpCop2Context) (v : Nat) (h : flagsOK c) :
    flagsOK (set_vce c v) :=
  ⟨h.1, h.2.1, h.2.2.1, h.2.2.2.1, maskReg_ifmask v _⟩

theorem flagsOK_mtc2 (c : SpCop2Context) (cpu : Fin 32 → Nat) (op : Nat) (h : flagsOK c) :
    flagsOK (mtc2 c cpu op) := h

theorem flagsOK_cfc2 (c : SpCop2Context) (cpu : Fin 32 → Nat) (op : Nat) (h : flagsOK c) :
    flagsOK ((cfc2 c cpu op).ctx) := by
  unfold cfc2; split_ifs <;> exact h

theorem flagsOK_ctc2 (c : SpCop2Context) (cpu : Fin 32 → Nat) (op : Nat) (h : flagsOK c) :
    flagsOK ((ctc2 c cpu op).ctx) := by
  unfold ctc2
  split_ifs with h0 h1 h2
  · exact flagsOK_set_vco c _ h
  · exact flagsOK_set_vcc c _ h
  · exact flagsOK_set_vce c _ h
  · exact h

instance (r : VectorReg) : Decidable (maskReg r) := by unfold maskReg; infer_instance

instance (c : SpCop2Context) : Decidable (flagsOK c) := by unfold flagsOK; infer_instance

set_option maxHeartbeats 4000000 in
/-- Claim C1: starting from a state whose flag lanes are legal
(`0x0000`/`0xFFFF`), every dispatched opcode (`uop`, both the VU-ALU and
the scalar-transfer branch, hence in particular CTC2) and every
`set_reg` write leave every lane of every flag register exactly
`0x0000` or `0xFFFF`. -/
theorem uop_flag_lanes_legal (K : Kernels) (c : SpCop2Context) (cpu : Fin 32 → Nat)
    (h : flagsOK c) :
    (∀ op, flagsOK ((uop K c cpu op).ctx)) ∧ (∀ idx val, flagsOK (set_reg c idx val)) := by
  constructor
  · intro op
    unfold uop
    by_cases h25 : op &&& 33554432 ≠ 0
    · rw [if_pos h25]
      by_cases hf0 : opFunc op = 0 ∨ opFunc op = 1 ∨ opFunc op = 4 ∨ opFunc op = 5 ∨ opFunc op = 6 ∨ opFunc op = 7 ∨ opFunc op = 8 ∨ opFunc op = 9 ∨ opFunc op = 12 ∨ opFunc op = 13 ∨ opFunc op = 14 ∨ opFunc op = 15
      · rw [if_pos hf0]; exact flagsOK_vmulArm K c op h
      rw [if_neg hf0]
      by_cases hf1 : opFunc op = 16
      · rw [if_pos hf1]; exact flagsOK_vaddArm c op h
      rw [if_neg hf1]
      by_cases hf2 : opFunc op = 17
      · rw [if_pos hf2]; exact flagsOK_vsubArm c op h
      rw [if_neg hf2]
      by_cases hf3 : opFunc op = 19
      · rw [if_pos hf3]; exact flagsOK_vabsArm c op h
      rw [if_neg hf3]
      by_cases hf4 : opFunc op = 20
      · rw [if_pos hf4]; exact flagsOK_vaddcArm c op h
      rw [if_neg hf4]
      by_cases hf5 : opFunc op = 21
      · rw [if_pos hf5]; exact flagsOK_vsubcArm c op h
      rw [if_neg hf5]
      by_cases hf6 : opFunc op = 23
      · rw [if_pos hf6]; exact flagsOK_vsubbArm c op h
      rw [if_neg hf6]
      by_cases hf7 : opFunc op = 25
      · rw [if_pos hf7]; exact flagsOK_vsubbArm c op h
      rw [if_neg hf7]
      by_cases hf8 : opFunc op = 29
      · rw [if_pos hf8]
        by_cases hsa : opE op ≤ 2
        · rw [if_pos hsa]; exact flagsOK_setvd c op _ h
        rw [if_neg hsa]
        by_cases hsb : 8 ≤ opE op ∧ opE op ≤ 10
        · rw [if_pos hsb]; exact flagsOK_setvd c op _ h
        rw [if_neg hsb]; exact h
      rw [if_neg hf8]
      by_cases hf9 : opFunc op = 32
      · rw [if_pos hf9]; exact flagsOK_vltArm c op h
      rw [if_neg hf9]
      by_cases hf10 : opFunc op = 33
      · rw [if_pos hf10]; exact flagsOK_veqArm c op h
      rw [if_neg hf10]
      by_cases hf11 : opFunc op = 34
      · rw [if_pos hf11]; exact flagsOK_vneArm c op h
      rw [if_neg hf11]
      by_cases hf12 : opFunc op = 35
      · rw [if_pos hf12]; exact flagsOK_vgeArm c op h
      rw [if_neg hf12]
      by_cases hf13 : opFunc op = 36
      · rw [if_pos hf13]; exact flagsOK_vclArm K c op
      rw [if_neg hf13]
      by_cases hf14 : opFunc op = 37
      · rw [if_pos hf14]; exact flagsOK_vchArm K c op
      rw [if_neg hf14]
      by_cases hf15 : opFunc op = 38
      · rw [if_pos hf15]; exact flagsOK_vcrArm K c op
      rw [if_neg hf15]
      by_cases hf16 : opFunc op = 39
      · rw [if_pos hf16]; exact flagsOK_vmrgArm c op h
      rw [if_neg hf16]
      by_cases hf17 : opFunc op = 40
      · rw [if_pos hf17]; exact flagsOK_logicArm _ c op h
      rw [if_neg hf17]
      by_cases hf18 : opFunc op = 41
      · rw [if_pos hf18]; exact flagsOK_logicArm _ c op h
      rw [if_neg hf18]
      by_cases hf19 : opFunc op = 42
      · rw [if_pos hf19]; exact flagsOK_logicArm _ c op h
      rw [if_neg hf19]
      by_cases hf20 : opFunc op = 43
      · rw [if_pos hf20]; exact flagsOK_logicArm _ c op h
      rw [if_neg hf20]
      by_cases hf21 : opFunc op = 44
      · rw [if_pos hf21]; exact flagsOK_logicArm _ c op h
      rw [if_neg hf21]
      by_cases hf22 : opFunc op = 45
      · rw [if_pos hf22]; exact flagsOK_logicArm _ c op h
      rw [if_neg hf22]
      by_cases hf23 : opFunc op = 48
      · rw [if_pos hf23]; exact flagsOK_vrcpArm K c op h
      rw [if_neg hf23]
      by_cases hf24 : opFunc op = 49
      · rw [if_pos hf24]; exact flagsOK_vrcplArm K c op h
      rw [if_neg hf24]
      by_cases hf25 : opFunc op = 50
      · rw [if_pos hf25]; exact flagsOK_vrcphArm c op h
      rw [if_neg hf25]
      by_cases hf26 : opFunc op = 51
      · rw [if_pos hf26]; exact flagsOK_vmovArm c op h
      rw [if_neg hf26]
      by_cases hf27 : opFunc op = 52
      · rw [if_pos hf27]; exact flagsOK_vrsqArm K c op h
      rw [if_neg hf27]
      by_cases hf28 : opFunc op = 53
      · rw [if_pos hf28]; exact flagsOK_vrsqlArm K c op h
      rw [if_neg hf28]
      by_cases hf29 : opFunc op = 54
      · rw [if_pos hf29]; exact flagsOK_vrsqhArm c op h
      rw [if_neg hf29]
      by_cases hf30 : opFunc op = 55
      · rw [if_pos hf30]; exact h
      rw [if_neg hf30]
      by_cases hf31 : opFunc op = 63
      · rw [if_pos hf31]; exact h
      rw [if_neg hf31]
      exact h
    · rw [if_neg h25]
      by_cases he0 : opE op = 0
      · rw [if_pos he0]; exact h
      rw [if_neg he0]
      by_cases he1 : opE op = 2
      · rw [if_pos he1]; exact flagsOK_cfc2 c cpu op h
      rw [if_neg he1]
      by_cases he2 : opE op = 4
      · rw [if_pos he2]; exact flagsOK_mtc2 c cpu op h
      rw [if_neg he2]
      by_cases he3 : opE op = 6
      · rw [if_pos he3]; exact flagsOK_ctc2 c cpu op h
      rw [if_neg he3]
      exact h
  · intro idx val
    unfold set_reg
    by_cases hr0 : idx = 32
    · rw [if_pos hr0]; exact flagsOK_set_vco c _ h
    rw [if_neg hr0]
    by_cases hr1 : idx = 33
    · rw [if_pos hr1]; exact flagsOK_set_vcc c _ h
    rw [if_neg hr1]
    by_cases hr2 : idx = 34
    · rw [if_pos hr2]; exact flagsOK_set_vce c _ h
    rw [if_neg hr2]
    by_cases hr3 : idx = 35
    · rw [if_pos hr3]; exact h
    rw [if_neg hr3]
    by_cases hr4 : idx = 36
    · rw [if_pos hr4]; exact h
    rw [if_neg hr4]
    by_cases hr5 : idx = 37
    · rw [if_pos hr5]; exact h
    rw [if_neg hr5]
    by_cases hrl : idx < 32
    · rw [dif_pos hrl]; exact h
    rw [dif_neg hrl]; exact h

/-! Concrete objects used by witnesses and counterexamples. -/

def clipOut0 : ClipOut :=
  ⟨vconst 0, fun _ => false, fun _ => false, fun _ => false, fun _ => false, fun _ => false⟩

/-- A trivial-but-concrete kernel instance (the theorems about `uop`
hold for every `Kernels`; witnesses instantiate with this one). -/
def K0 : Kernels :=
  ⟨fun _ => 0, fun _ => 0, fun _ _ _ lo md hi => (vconst 0, lo, md, hi),
    fun _ _ => clipOut0, fun _ _ => clipOut0, fun _ _ _ _ _ _ _ => clipOut0⟩

/-- The reset (zeroed) context. -/
def ctx0 : SpCop2Context :=
  ⟨fun _ => vconst 0, fun _ => vconst 0, vconst 0, vconst 0, vconst 0,
    vconst 0, vconst 0, none, 0⟩

def cpu0 : Fin 32 → Nat := fun _ => 0

/-- Witness for C1 at a concrete input: the zeroed context satisfies the
invariant, and a concrete VADDC opcode (`func = 0x14`) preserves it. -/
theorem uop_flag_lanes_legal_witness :
    flagsOK ctx0 ∧ flagsOK ((uop K0 ctx0 cpu0 33554452).ctx) :=
  ⟨by decide, (uop_flag_lanes_legal K0 ctx0 cpu0 (by decide)).1 33554452⟩

/-! Arithmetic facts about the 16-bit lane operations (claim C2). -/

theorem toS16_bounds (x : Nat) : -32768 ≤ toS16 x ∧ toS16 x ≤ 32767 := by
  unfold toS16; split <;> omega

theorem toS16_mod (x : Nat) : toS16 (x % 65536) = toS16 x := by
  unfold toS16; simp [Nat.mod_mod_of_dvd]

theorem i16ofInt_lt (v : Int) : i16ofInt v < 65536 := by
  unfold i16ofInt; omega

theorem toS16_inj {a b : Nat} (ha : a < 65536) (hb : b < 65536) (h : toS16 a = toS16 b) :
    a = b := by
  unfold toS16 at h; split_ifs at h <;> omega

theorem satS_mem (v : Int) : -32768 ≤ satS v ∧ satS v ≤ 32767 := by
  unfold satS; split_ifs <;> omega

theorem toS16_i16ofInt {w : Int} (h1 : -32768 ≤ w) (h2 : w ≤ 32767) :
    toS16 (i16ofInt w) = w := by
  unfold toS16 i16ofInt; split <;> omega

theorem subsS_toS16 (x y : Nat) : toS16 (subsS x y) = satS (toS16 x - toS16 y) :=
  toS16_i16ofInt (satS_mem _).1 (satS_mem _).2

theorem minmax_sum (x y : Nat) :
    toS16 (minS x y) + toS16 (maxS x y) = toS16 x + toS16 y := by
  unfold minS maxS; split_ifs <;> rw [toS16_mod, toS16_mod] <;> omega

theorem minmax_le (x y : Nat) : toS16 (minS x y) ≤ toS16 (maxS x y) := by
  unfold minS maxS; split_ifs with h <;> rw [toS16_mod, toS16_mod] <;> omega

theorem sat_fold (mi ma cb : Int) (hle : mi ≤ ma)
    (hmi1 : -32768 ≤ mi) (hmi2 : mi ≤ 32767)
    (hma1 : -32768 ≤ ma) (hma2 : ma ≤ 32767)
    (hcb : cb = 0 ∨ cb = 1) :
    satS (satS (mi + cb) + ma) = satS (mi + ma + cb) := by
  unfold satS; split_ifs <;> omega

/-- The min/max/saturate dance of the VADD arm computes the saturated
sum with the carry folded in before saturation. -/
theorem vadd_lane_sat (x y m : Nat) (hm : laneMask m) :
    addsS (subsS (minS x y) m) (maxS x y)
      = i16ofInt (satS (toS16 x + toS16 y + (if m = 65535 then 1 else 0))) := by
  have hmm : toS16 m = -(if m = 65535 then (1:Int) else 0) := by
    rcases hm with rfl | rfl <;> simp <;> decide
  apply toS16_inj (i16ofInt_lt _) (i16ofInt_lt _)
  rw [toS16_i16ofInt (satS_mem _).1 (satS_mem _).2,
    toS16_i16ofInt (satS_mem _).1 (satS_mem _).2, subsS_toS16, hmm]
  have h1 := minmax_sum x y
  have h2 := minmax_le x y
  have h3 := toS16_bounds (minS x y)
  have h4 := toS16_bounds (maxS x y)
  have h5 := sat_fold (toS16 (minS x y)) (toS16 (maxS x y))
    (if m = 65535 then (1:Int) else 0) h2 h3.1 h3.2 h4.1 h4.2
    (by split <;> simp)
  rw [sub_neg_eq_add, h5]
  congr 1
  omega

theorem vadd_lane_acc (x y m : Nat) (hm : laneMask m) :
    subWrap16 (addWrap16 x y) m = (x + y + (if m = 65535 then 1 else 0)) % 65536 := by
  rcases hm with rfl | rfl
  · rw [if_neg (by omega)]
    unfold subWrap16 addWrap16
    omega
  · rw [if_pos rfl]
    unfold subWrap16 addWrap16
    omega

/-! Dispatch-reduction lemmas for `uop`: with the function field pinned,
the dispatcher reduces to the corresponding arm. -/

theorem uop_dispatch_vadd (K : Kernels) (c : SpCop2Context) (cpu : Fin 32 → Nat) (op : Nat)
    (h25 : op &&& 33554432 ≠ 0) (hf : opFunc op = 16) :
    uop K c cpu op = ⟨.ok, vaddArm c op, cpu⟩ := by
  unfold uop; rw [if_pos h25]; simp only [hf]; norm_num

theorem uop_dispatch_vsar (K : Kernels) (c : SpCop2Context) (cpu : Fin 32 → Nat) (op : Nat)
    (h25 : op &&& 33554432 ≠ 0) (hf : opFunc op = 29) :
    uop K c cpu op =
      (if opE op ≤ 2 then ⟨.ok, setvd c op (vconst 0), cpu⟩
       else if 8 ≤ opE op ∧ opE op ≤ 10 then
         ⟨.ok, setvd c op (c.accum (fin3 (2 - (opE op - 8)))), cpu⟩
       else ⟨.rustPanic "not implemented", c, cpu⟩) := by
  unfold uop; rw [if_pos h25]; simp only [hf]; norm_num

theorem uop_dispatch_vrcp (K : Kernels) (c : SpCop2Context) (cpu : Fin 32 → Nat) (op : Nat)
    (h25 : op &&& 33554432 ≠ 0) (hf : opFunc op = 48) :
    uop K c cpu op = ⟨.ok, vrcpArm K c op, cpu⟩ := by
  unfold uop; rw [if_pos h25]; simp only [hf]; norm_num

theorem uop_dispatch_vrcpl (K : Kernels) (c : SpCop2Context) (cpu : Fin 32 → Nat) (op : Nat)
    (h25 : op &&& 33554432 ≠ 0) (hf : opFunc op = 49) :
    uop K c cpu op = ⟨.ok, vrcplArm K c op, cpu⟩ := by
  unfold uop; rw [if_pos h25]; simp only [hf]; norm_num

theorem uop_dispatch_vrcph (K : Kernels) (c : SpCop2Context) (cpu : Fin 32 → Nat) (op : Nat)
    (h25 : op &&& 33554432 ≠ 0) (hf : opFunc op = 50) :
    uop K c cpu op = ⟨.ok, vrcphArm c op, cpu⟩ := by
  unfold uop; rw [if_pos h25]; simp only [hf]; norm_num

theorem uop_dispatch_vmov (K : Kernels) (c : SpCop2Context) (cpu : Fin 32 → Nat) (op : Nat)
    (h25 : op &&& 33554432 ≠ 0) (hf : opFunc op = 51) :
    uop K c cpu op = ⟨.ok, vmovArm c op, cpu⟩ := by
  unfold uop; rw [if_pos h25]; simp only [hf]; norm_num

theorem uop_dispatch_vrsq (K : Kernels) (c : SpCop2Context) (cpu : Fin 32 → Nat) (op : Nat)
    (h25 : op &&& 33554432 ≠ 0) (hf : opFunc op = 52) :
    uop K c cpu op = ⟨.ok, vrsqArm K c op, cpu⟩ := by
  unfold uop; rw [if_pos h25]; simp only [hf]; norm_num

theorem uop_dispatch_vrsql (K : Kernels) (c : SpCop2Context) (cpu : Fin 32 → Nat) (op : Nat)
    (h25 : op &&& 33554432 ≠ 0) (hf : opFunc op = 53) :
    uop K c cpu op = ⟨.ok, vrsqlArm K c op, cpu⟩ := by
  unfold uop; rw [if_pos h25]; simp only [hf]; norm_num

theorem uop_dispatch_vrsqh (K : Kernels) (c : SpCop2Context) (cpu : Fin 32 → Nat) (op : Nat)
    (h25 : op &&& 33554432 ≠ 0) (hf : opFunc op = 54) :
    uop K c cpu op = ⟨.ok, vrsqhArm c op, cpu⟩ := by
  unfold uop; rw [if_pos h25]; simp only [hf]; norm_num

theorem uop_dispatch_scalar (K : Kernels) (c : SpCop2Context) (cpu : Fin 32 → Nat) (op : Nat)
    (h25 : op &&& 33554432 = 0) :
    uop K c cpu op =
      (if opE op = 0 then ⟨.ok, c, mfc2 c cpu op⟩
       else if opE op = 2 then cfc2 c cpu op
       else if opE op = 4 then ⟨.ok, mtc2 c cpu op, cpu⟩
       else if opE op = 6 then ctc2 c cpu op
       else ⟨.breakHere "unimplemented COP2 non-VU opcode", c, cpu⟩) := by
  have h : ¬(op &&& 33554432 ≠ 0) := by omega
  unfold uop; rw [if_neg h]

/-- Claim C2: VADD (`func = 0x10`) writes each vd lane as the signed
saturation of `vs + vte + carry` with the carry folded in before
saturating, writes `accum.lo` as the wrapping sum, and clears both carry
and ne. -/
theorem vadd_saturate_carry (K : Kernels) (c : SpCop2Context) (cpu : Fin 32 → Nat) (op : Nat)
    (h25 : op &&& 33554432 ≠ 0) (hf : opFunc op = 16) (hm : maskReg c.vco_carry) :
    (∀ i : Fin 8, (uop K c cpu op).ctx.vregs (fin32 (opRd op)) i
        = i16ofInt (satS (toS16 (vsOf c op i) + toS16 (vteOf c op i)
            + (if c.vco_carry i = 65535 then 1 else 0))))
  ∧ (∀ i : Fin 8, (uop K c cpu op).ctx.accum 0 i
        = (vsOf c op i + vteOf c op i + (if c.vco_carry i = 65535 then 1 else 0)) % 65536)
  ∧ (uop K c cpu op).ctx.vco_carry = vconst 0
  ∧ (uop K c cpu op).ctx.vco_ne = vconst 0 := by
  rw [uop_dispatch_vadd K c cpu op h25 hf]
  refine ⟨fun i => ?_, fun i => ?_, rfl, rfl⟩
  · simp only [vaddArm, setvd, setaccum, Function.update_same, vmap2]
    exact vadd_lane_sat _ _ _ (hm i)
  · simp only [vaddArm, setvd, setaccum, Function.update_same, vmap2]
    exact vadd_lane_acc _ _ _ (hm i)

/-- Context for the C2 witness: all register lanes `0x8000`, carry all
set (the spec's VADD saturation scenario). -/
def ctxC2 : SpCop2Context :=
  { ctx0 with vregs := fun _ => vconst 32768, vco_carry := vconst 65535 }

/-- `VADD v3, v1, v2` with `e = 0` (bit 25 set, func 0x10). -/
def opC2 : Nat := 33554432 + 2 * 65536 + 2048 + 3 * 64 + 16

/-- Witness for C2, checking the spec scenario: vd lane 0 is `0x8000`
and `accum.lo` lane 0 is `0x0001`. -/
theorem vadd_saturate_carry_witness :
    (opC2 &&& 33554432 ≠ 0) ∧ opFunc opC2 = 16 ∧ maskReg ctxC2.vco_carry ∧
    ((∀ i : Fin 8, (uop K0 ctxC2 cpu0 opC2).ctx.vregs (fin32 (opRd opC2)) i
        = i16ofInt (satS (toS16 (vsOf ctxC2 opC2 i) + toS16 (vteOf ctxC2 opC2 i)
            + (if ctxC2.vco_carry i = 65535 then 1 else 0))))
      ∧ (∀ i : Fin 8, (uop K0 ctxC2 cpu0 opC2).ctx.accum 0 i
          = (vsOf ctxC2 opC2 i + vteOf ctxC2 opC2 i
              + (if ctxC2.vco_carry i = 65535 then 1 else 0)) % 65536)
      ∧ (uop K0 ctxC2 cpu0 opC2).ctx.vco_carry = vconst 0
      ∧ (uop K0 ctxC2 cpu0 opC2).ctx.vco_ne = vconst 0) ∧
    (uop K0 ctxC2 cpu0 opC2).ctx.vregs (fin32 3) 0 = 32768 ∧
    (uop K0 ctxC2 cpu0 opC2).ctx.accum 0 0 = 1 :=
  ⟨by decide, by decide, by decide,
    vadd_saturate_carry K0 ctxC2 cpu0 opC2 (by decide) (by decide) (by decide),
    by decide, by decide⟩

/-- Claim C4, amended: VSAR (`func = 0x1D`) with `e = 8` writes
`vd = accum.hi`, `e = 9` writes `vd = accum.md`, `e = 10` writes
`vd = accum.lo` (the source maps `e` to `accum[2 - (e - 8)]`, the
reverse of the claimed order); with `e ∈ {0,1,2}` it writes `vd = 0`;
in every case the accumulator is read, not written. -/
theorem vsar_reads_accum (K : Kernels) (c : SpCop2Context) (cpu : Fin 32 → Nat) (op : Nat)
    (h25 : op &&& 33554432 ≠ 0) (hf : opFunc op = 29) :
    ((opE op = 8 → (uop K c cpu op).ctx.vregs (fin32 (opRd op)) = c.accum 2)
  ∧ (opE op = 9 → (uop K c cpu op).ctx.vregs (fin32 (opRd op)) = c.accum 1)
  ∧ (opE op = 10 → (uop K c cpu op).ctx.vregs (fin32 (opRd op)) = c.accum 0)
  ∧ (opE op ≤ 2 → (uop K c cpu op).ctx.vregs (fin32 (opRd op)) = vconst 0))
  ∧ (uop K c cpu op).ctx.accum = c.accum := by
  rw [uop_dispatch_vsar K c cpu op h25 hf]
  constructor
  · refine ⟨fun h8 => ?_, fun h9 => ?_, fun h10 => ?_, fun hle => ?_⟩
    · rw [if_neg (by omega), if_pos (by omega)]
      simp only [setvd, Function.update_same, h8]
      congr 1
    · rw [if_neg (by omega), if_pos (by omega)]
      simp only [setvd, Function.update_same, h9]
      congr 1
    · rw [if_neg (by omega), if_pos (by omega)]
      simp only [setvd, Function.update_same, h10]
      congr 1
    · rw [if_pos hle]
      simp only [setvd, Function.update_same]
  · by_cases hsa : opE op ≤ 2
    · rw [if_pos hsa]; rfl
    rw [if_neg hsa]
    by_cases hsb : 8 ≤ opE op ∧ opE op ≤ 10
    · rw [if_pos hsb]; rfl
    rw [if_neg hsb]

/-- Context distinguishing the three accumulator slices: lane values
`1`, `2`, `3` for LO, MD, HI. -/
def ctxC4 : SpCop2Context := { ctx0 with accum := fun a => vconst (a.val + 1) }

/-- `VSAR v0, e = 8` (bit 25 set, func 0x1D). -/
def opC4 : Nat := 33554432 + 8 * 2097152 + 29

/-- Claim C4 as stated is false: with `e = 8` VSAR writes `accum.hi`
(lane value 3 here), not `accum.lo` (lane value 1). -/
theorem vsar_e8_not_acc_lo :
    (uop K0 ctxC4 cpu0 opC4).ctx.vregs (fin32 (opRd opC4)) 0 = 3 ∧
    ctxC4.accum 0 0 = 1 ∧
    (uop K0 ctxC4 cpu0 opC4).ctx.vregs (fin32 (opRd opC4)) 0 ≠ ctxC4.accum 0 0 := by
  refine ⟨by decide, by decide, by decide⟩

/-- Witness for the amended C4 at a concrete input. -/
theorem vsar_reads_accum_witness :
    (opC4 &&& 33554432 ≠ 0) ∧ opFunc opC4 = 29 ∧
    (((opE opC4 = 8 → (uop K0 ctxC4 cpu0 opC4).ctx.vregs (fin32 (opRd opC4)) = ctxC4.accum 2)
    ∧ (opE opC4 = 9 → (uop K0 ctxC4 cpu0 opC4).ctx.vregs (fin32 (opRd opC4)) = ctxC4.accum 1)
    ∧ (opE opC4 = 10 → (uop K0 ctxC4 cpu0 opC4).ctx.vregs (fin32 (opRd opC4)) = ctxC4.accum 0)
    ∧ (opE opC4 ≤ 2 → (uop K0 ctxC4 cpu0 opC4).ctx.vregs (fin32 (opRd opC4)) = vconst 0))
    ∧ (uop K0 ctxC4 cpu0 opC4).ctx.accum = ctxC4.accum) :=
  ⟨by decide, by decide, vsar_reads_accum K0 ctxC4 cpu0 opC4 (by decide) (by decide)⟩

/-- Claim C9, amended: a COP2 scalar-move opcode with `e ∉ {0,2,4,6}`
leaves the state unchanged and surfaces a debugger break (the
dispatcher returns the tracer's error value); but CFC2/CTC2 with
`rs ∉ {0,1,2}` instead hits a Rust `panic!` (not a tracer break),
also leaving the coprocessor state unchanged. -/
theorem scalar_unknown_break (K : Kernels) (c : SpCop2Context) (cpu : Fin 32 → Nat)
    (op : Nat) (h25 : op &&& 33554432 = 0) :
    ((opE op ≠ 0 ∧ opE op ≠ 2 ∧ opE op ≠ 4 ∧ opE op ≠ 6) →
      uop K c cpu op = ⟨.breakHere "unimplemented COP2 non-VU opcode", c, cpu⟩)
  ∧ (opE op = 2 → 2 < opRs op →
      uop K c cpu op = ⟨.rustPanic "unimplement COP2 CFC2 reg", c, cpu⟩)
  ∧ (opE op = 6 → 2 < opRs op →
      uop K c cpu op = ⟨.rustPanic "unimplement COP2 CTC2 reg", c, cpu⟩) := by
  rw [uop_dispatch_scalar K c cpu op h25]
  refine ⟨?_, ?_, ?_⟩
  · rintro ⟨h0, h2, h4, h6⟩
    rw [if_neg h0, if_neg h2, if_neg h4, if_neg h6]
  · intro h2 hr
    rw [if_neg (by omega), if_pos h2]
    unfold cfc2
    rw [if_neg (by omega), if_neg (by omega), if_neg (by omega)]
  · intro h6 hr
    rw [if_neg (by omega), if_neg (by omega), if_neg (by omega), if_pos h6]
    unfold ctc2
    rw [if_neg (by omega), if_neg (by omega), if_neg (by omega)]

def isBreakHere : VuResult → Bool
  | .breakHere _ => true
  | _ => false

/-- `CFC2` encoding with `rs = 3` (`e = 2`, bit 25 clear). -/
def opC9 : Nat := 2 * 2097152 + 3 * 2048

/-- Claim C9 as stated is false: CFC2 with `rs = 3` is a Rust `panic!`
in the source (`panic!("unimplement COP2 CFC2 reg...")`), not a
debugger break. -/
theorem cfc2_bad_rs_panics :
    (uop K0 ctx0 cpu0 opC9).res = VuResult.rustPanic "unimplement COP2 CFC2 reg" ∧
    isBreakHere (uop K0 ctx0 cpu0 opC9).res = false := ⟨rfl, rfl⟩

/-- Witness for the amended C9 at a concrete input (`e = 3`). -/
theorem scalar_unknown_break_witness :
    ((6291456 : Nat) &&& 33554432 = 0) ∧
    (((opE 6291456 ≠ 0 ∧ opE 6291456 ≠ 2 ∧ opE 6291456 ≠ 4 ∧ opE 6291456 ≠ 6) →
      uop K0 ctx0 cpu0 6291456 = ⟨.breakHere "unimplemented COP2 non-VU opcode", ctx0, cpu0⟩)
    ∧ (opE 6291456 = 2 → 2 < opRs 6291456 →
      uop K0 ctx0 cpu0 6291456 = ⟨.rustPanic "unimplement COP2 CFC2 reg", ctx0, cpu0⟩)
    ∧ (opE 6291456 = 6 → 2 < opRs 6291456 →
      uop K0 ctx0 cpu0 6291456 = ⟨.rustPanic "unimplement COP2 CTC2 reg", ctx0, cpu0⟩)) :=
  ⟨by decide, scalar_unknown_break K0 ctx0 cpu0 6291456 (by decide)⟩

theorem setLane_get (r : VectorReg) (i v : Nat) : setLane r i v (fin8 i) = v := by
  unfold setLane; rw [if_pos rfl]

theorem setLane_get_ne (r : VectorReg) (i v : Nat) (j : Fin 8) (h : j ≠ fin8 i) :
    setLane r i v j = r j := by
  unfold setLane; rw [if_neg h]

/-- Common frame shape of the scalar-lane family: write one vd lane,
then store the raw (possibly just-updated) vt register into
`accum.lo`. -/
theorem frame_core (c : SpCop2Context) (op : Nat) (w : Nat) :
    (setaccum (setvdLane c op (opRs op &&& 7) w) 0
        (vtOf (setvdLane c op (opRs op &&& 7) w) op)).accum 1 = c.accum 1
  ∧ (setaccum (setvdLane c op (opRs op &&& 7) w) 0
        (vtOf (setvdLane c op (opRs op &&& 7) w) op)).accum 2 = c.accum 2
  ∧ (setaccum (setvdLane c op (opRs op &&& 7) w) 0
        (vtOf (setvdLane c op (opRs op &&& 7) w) op)).accum 0
      = (setaccum (setvdLane c op (opRs op &&& 7) w) 0
          (vtOf (setvdLane c op (opRs op &&& 7) w) op)).vregs (fin32 (opRt op))
  ∧ (fin32 (opRt op) ≠ fin32 (opRd op) →
      (setaccum (setvdLane c op (opRs op &&& 7) w) 0
          (vtOf (setvdLane c op (opRs op &&& 7) w) op)).accum 0
        = c.vregs (fin32 (opRt op)))
  ∧ (∀ j, j ≠ fin32 (opRd op) →
      (setaccum (setvdLane c op (opRs op &&& 7) w) 0
          (vtOf (setvdLane c op (opRs op &&& 7) w) op)).vregs j = c.vregs j)
  ∧ (∀ i : Fin 8, i ≠ fin8 (opRs op &&& 7) →
      (setaccum (setvdLane c op (opRs op &&& 7) w) 0
          (vtOf (setvdLane c op (opRs op &&& 7) w) op)).vregs (fin32 (opRd op)) i
        = c.vregs (fin32 (opRd op)) i) := by
  refine ⟨?_, ?_, ?_, ?_, ?_, ?_⟩
  · simp only [setaccum, setvdLane]
    rw [Function.update_noteq (by decide)]
  · simp only [setaccum, setvdLane]
    rw [Function.update_noteq (by decide)]
  · simp only [setaccum, setvdLane, vtOf]
    rw [show fin3 0 = (0 : Fin 3) from rfl, Function.update_same]
  · intro hne
    simp only [setaccum, setvdLane, vtOf]
    rw [show fin3 0 = (0 : Fin 3) from rfl, Function.update_same,
      Function.update_noteq hne]
  · intro j hj
    simp only [setaccum, setvdLane]
    rw [Function.update_noteq hj]
  · intro i hi
    simp only [setaccum, setvdLane]
    rw [Function.update_same, setLane_get_ne _ _ _ _ hi]

/-- Claim C10: every op of the reciprocal/move scalar-lane family
(VRCP, VRCPL, VRCPH, VMOV, VRSQ, VRSQL, VRSQH; `func` 0x30..0x36)
leaves `accum.md` and `accum.hi` unchanged, stores the raw vt register
(no element broadcast) into `accum.lo` (the read happens after the vd
lane write, so it is the final value of the vt register), writes only
lane `rs & 7` of vd, and leaves all other registers and all other vd
lanes unchanged. -/
theorem scalar_lane_family_frame (K : Kernels) (c : SpCop2Context) (cpu : Fin 32 → Nat)
    (op : Nat) (h25 : op &&& 33554432 ≠ 0)
    (hf : opFunc op = 48 ∨ opFunc op = 49 ∨ opFunc op = 50 ∨ opFunc op = 51 ∨
      opFunc op = 52 ∨ opFunc op = 53 ∨ opFunc op = 54) :
    (uop K c cpu op).ctx.accum 1 = c.accum 1
  ∧ (uop K c cpu op).ctx.accum 2 = c.accum 2
  ∧ (uop K c cpu op).ctx.accum 0 = (uop K c cpu op).ctx.vregs (fin32 (opRt op))
  ∧ (fin32 (opRt op) ≠ fin32 (opRd op) →
      (uop K c cpu op).ctx.accum 0 = c.vregs (fin32 (opRt op)))
  ∧ (∀ j, j ≠ fin32 (opRd op) → (uop K c cpu op).ctx.vregs j = c.vregs j)
  ∧ (∀ i : Fin 8, i ≠ fin8 (opRs op &&& 7) →
      (uop K c cpu op).ctx.vregs (fin32 (opRd op)) i = c.vregs (fin32 (opRd op)) i) := by
  rcases hf with hf | hf | hf | hf | hf | hf | hf
  · rw [uop_dispatch_vrcp K c cpu op h25 hf]; exact frame_core c op _
  · rw [uop_dispatch_vrcpl K c cpu op h25 hf]
    unfold vrcplArm
    rcases c.div_in with _ | d <;> exact frame_core c op _
  · rw [uop_dispatch_vrcph K c cpu op h25 hf]; exact frame_core c op _
  · rw [uop_dispatch_vmov K c cpu op h25 hf]; exact frame_core c op _
  · rw [uop_dispatch_vrsq K c cpu op h25 hf]; exact frame_core c op _
  · rw [uop_dispatch_vrsql K c cpu op h25 hf]
    unfold vrsqlArm
    rcases c.div_in with _ | d <;> exact frame_core c op _
  · rw [uop_dispatch_vrsqh K c cpu op h25 hf]; exact frame_core c op _

/-- `VRCP v4 lane 5, vt = v2 lane 0` (bit 25, func 0x30, rs = 5, rt = 2,
rd = 4). -/
def opC10 : Nat := 33554432 + 2 * 65536 + 5 * 2048 + 4 * 64 + 48

/-- Witness for C10 at a concrete input. -/
theorem scalar_lane_family_frame_witness :
    (opC10 &&& 33554432 ≠ 0) ∧
    ((uop K0 ctxC4 cpu0 opC10).ctx.accum 1 = ctxC4.accum 1
    ∧ (uop K0 ctxC4 cpu0 opC10).ctx.accum 2 = ctxC4.accum 2
    ∧ (uop K0 ctxC4 cpu0 opC10).ctx.accum 0
        = (uop K0 ctxC4 cpu0 opC10).ctx.vregs (fin32 (opRt opC10))
    ∧ (fin32 (opRt opC10) ≠ fin32 (opRd opC10) →
        (uop K0 ctxC4 cpu0 opC10).ctx.accum 0 = ctxC4.vregs (fin32 (opRt opC10)))
    ∧ (∀ j, j ≠ fin32 (opRd opC10) →
        (uop K0 ctxC4 cpu0 opC10).ctx.vregs j = ctxC4.vregs j)
    ∧ (∀ i : Fin 8, i ≠ fin8 (opRs opC10 &&& 7) →
        (uop K0 ctxC4 cpu0 opC10).ctx.vregs (fin32 (opRd opC10)) i
          = ctxC4.vregs (fin32 (opRd opC10)) i)) :=
  ⟨by decide, scalar_lane_family_frame K0 ctxC4 cpu0 opC10 (by decide)
    (Or.inl (by decide))⟩

/-- Claim C3: VRCPH (`func = 0x32`) latches `div_in = x << 16` and
writes its target lane from the high 16 bits of the previous
`div_out`; a following VRCPL (`func = 0x31`) computes the reciprocal
of the combined 32-bit argument `(x << 16) | y` (the same `vrcp`
function as single precision) and clears the latch; VRCPL with no
pending latch computes `vrcp` of the sign-extended 16-bit input. -/
theorem vrcp_double_precision (K : Kernels) (c : SpCop2Context) (cpu : Fin 32 → Nat)
    (op1 op2 : Nat)
    (h25a : op1 &&& 33554432 ≠ 0) (hfa : opFunc op1 = 50)
    (h25b : op2 &&& 33554432 ≠ 0) (hfb : opFunc op2 = 49) :
    (uop K c cpu op1).ctx.div_in
        = some (getLane (vtOf c op1) (opE op1 &&& 7) <<< 16)
  ∧ (uop K c cpu op1).ctx.vregs (fin32 (opRd op1)) (fin8 (opRs op1 &&& 7))
        = (c.div_out >>> 16) % 65536
  ∧ (uop K (uop K c cpu op1).ctx cpu op2).ctx.div_out
        = K.vrcp ((getLane (vtOf c op1) (opE op1 &&& 7) <<< 16)
            ||| getLane (vtOf (uop K c cpu op1).ctx op2) (opE op2 &&& 7))
  ∧ (uop K (uop K c cpu op1).ctx cpu op2).ctx.vregs (fin32 (opRd op2))
        (fin8 (opRs op2 &&& 7))
        = K.vrcp ((getLane (vtOf c op1) (opE op1 &&& 7) <<< 16)
            ||| getLane (vtOf (uop K c cpu op1).ctx op2) (opE op2 &&& 7)) % 65536
  ∧ (uop K (uop K c cpu op1).ctx cpu op2).ctx.div_in = none
  ∧ (c.div_in = none →
      (uop K c cpu op2).ctx.div_out
        = K.vrcp (sx32 (getLane (vtOf c op2) (opE op2 &&& 7)))) := by
  rw [uop_dispatch_vrcph K c cpu op1 h25a hfa]
  dsimp only
  rw [uop_dispatch_vrcpl K (vrcphArm c op1) cpu op2 h25b hfb,
    uop_dispatch_vrcpl K c cpu op2 h25b hfb]
  dsimp only
  refine ⟨rfl, ?_, ?_, ?_, rfl, ?_⟩
  · simp only [vrcphArm, setvdLane, setaccum]
    rw [Function.update_same, setLane_get]
  · dsimp only [vrcplArm, vrcphArm]
    rw [Nat.lor_comm]
  · dsimp only [vrcplArm, vrcphArm]
    simp only [setvdLane, setaccum]
    rw [Function.update_same, setLane_get, Nat.lor_comm]
  · intro h
    dsimp only [vrcplArm]
    rw [h]

/-- `VRCPH v3 lane 2, vt = v1 lane 0` and `VRCPL v6 lane 5, vt = v4
lane 0`. -/
def opC3h : Nat := 33554432 + 1 * 65536 + 2 * 2048 + 3 * 64 + 50

def opC3l : Nat := 33554432 + 4 * 65536 + 5 * 2048 + 6 * 64 + 49

/-- Witness for C3 at concrete inputs. -/
theorem vrcp_double_precision_witness :
    (opC3h &&& 33554432 ≠ 0) ∧ opFunc opC3h = 50 ∧
    (opC3l &&& 33554432 ≠ 0) ∧ opFunc opC3l = 49 ∧
    ((uop K0 ctx0 cpu0 opC3h).ctx.div_in
        = some (getLane (vtOf ctx0 opC3h) (opE opC3h &&& 7) <<< 16)
    ∧ (uop K0 ctx0 cpu0 opC3h).ctx.vregs (fin32 (opRd opC3h)) (fin8 (opRs opC3h &&& 7))
        = (ctx0.div_out >>> 16) % 65536
    ∧ (uop K0 (uop K0 ctx0 cpu0 opC3h).ctx cpu0 opC3l).ctx.div_out
        = K0.vrcp ((getLane (vtOf ctx0 opC3h) (opE opC3h &&& 7) <<< 16)
            ||| getLane (vtOf (uop K0 ctx0 cpu0 opC3h).ctx opC3l) (opE opC3l &&& 7))
    ∧ (uop K0 (uop K0 ctx0 cpu0 opC3h).ctx cpu0 opC3l).ctx.vregs (fin32 (opRd opC3l))
        (fin8 (opRs opC3l &&& 7))
        = K0.vrcp ((getLane (vtOf ctx0 opC3h) (opE opC3h &&& 7) <<< 16)
            ||| getLane (vtOf (uop K0 ctx0 cpu0 opC3h).ctx opC3l) (opE opC3l &&& 7)) % 65536
    ∧ (uop K0 (uop K0 ctx0 cpu0 opC3h).ctx cpu0 opC3l).ctx.div_in = none
    ∧ (ctx0.div_in = none →
        (uop K0 ctx0 cpu0 opC3l).ctx.div_out
          = K0.vrcp (sx32 (getLane (vtOf ctx0 opC3l) (opE opC3l &&& 7))))) :=
  ⟨by decide, by decide, by decide, by decide,
    vrcp_double_precision K0 ctx0 cpu0 opC3h opC3l
      (by decide) (by decide) (by decide) (by decide)⟩

theorem and1_eq (v k : Nat) : (v >>> k) &&& 1 = if v.testBit k then 1 else 0 := by
  rw [Nat.and_one_is_mod, Nat.shiftRight_eq_div_pow, Nat.testBit_to_div_mod]
  split
  · next h => simp at h; omega
  · next h => simp at h; omega

theorem testBit_mod2 (x : Nat) {k : Nat} (hk : k ≠ 0) : (x % 2).testBit k = false := by
  apply Nat.testBit_lt_two_pow
  have h2 : 2 ≤ 2 ^ k := by
    calc 2 = 2 ^ 1 := rfl
    _ ≤ 2 ^ k := Nat.pow_le_pow_right (by norm_num) (by omega)
  omega

theorem vcoGet_bit_lo (c : SpCop2Context) (i : Fin 8) :
    (vcoGet c >>> i.val) &&& 1 = c.vco_carry i &&& 1 := by
  rw [and1_eq]
  fin_cases i <;>
    simp [vcoGet, Nat.testBit_or, Nat.testBit_shiftLeft, testBit_mod2, Nat.testBit_zero] <;>
    (try split) <;> omega

theorem vcoGet_bit_hi (c : SpCop2Context) (i : Fin 8) :
    (vcoGet c >>> (i.val + 8)) &&& 1 = c.vco_ne i &&& 1 := by
  rw [and1_eq]
  fin_cases i <;>
    simp [vcoGet, Nat.testBit_or, Nat.testBit_shiftLeft, testBit_mod2, Nat.testBit_zero] <;>
    (try split) <;> omega

theorem vccGet_bit_lo (c : SpCop2Context) (i : Fin 8) :
    (vccGet c >>> i.val) &&& 1 = c.vcc_normal i &&& 1 := by
  rw [and1_eq]
  fin_cases i <;>
    simp [vccGet, Nat.testBit_or, Nat.testBit_shiftLeft, testBit_mod2, Nat.testBit_zero] <;>
    (try split) <;> omega

theorem vccGet_bit_hi (c : SpCop2Context) (i : Fin 8) :
    (vccGet c >>> (i.val + 8)) &&& 1 = c.vcc_clip i &&& 1 := by
  rw [and1_eq]
  fin_cases i <;>
    simp [vccGet, Nat.testBit_or, Nat.testBit_shiftLeft, testBit_mod2, Nat.testBit_zero] <;>
    (try split) <;> omega

theorem vceGet_bit (c : SpCop2Context) (i : Fin 8) :
    (vceGet c >>> i.val) &&& 1 = c.vce i &&& 1 := by
  rw [and1_eq]
  fin_cases i <;>
    simp [vceGet, Nat.testBit_or, Nat.testBit_shiftLeft, testBit_mod2, Nat.testBit_zero] <;>
    (try split) <;> omega

theorem mask_decode {x : Nat} (hx : laneMask x) :
    (if x &&& 1 ≠ 0 then 65535 else 0) = x := by
  rcases hx with rfl | rfl <;> decide

theorem set_vco_vcoGet (c : SpCop2Context) (h : flagsOK c) : set_vco c (vcoGet c) = c := by
  obtain ⟨h1, h2, h3, h4, h5⟩ := h
  unfold set_vco
  have hc : (fun i => if (vcoGet c >>> i.val) &&& 1 ≠ 0 then 65535 else 0 : VectorReg)
      = c.vco_carry := by
    funext i
    rw [vcoGet_bit_lo]
    exact mask_decode (h1 i)
  have hn : (fun i => if (vcoGet c >>> (i.val + 8)) &&& 1 ≠ 0 then 65535 else 0 : VectorReg)
      = c.vco_ne := by
    funext i
    rw [vcoGet_bit_hi]
    exact mask_decode (h2 i)
  rw [hc, hn]

theorem set_vcc_vccGet (c : SpCop2Context) (h : flagsOK c) : set_vcc c (vccGet c) = c := by
  obtain ⟨h1, h2, h3, h4, h5⟩ := h
  unfold set_vcc
  have hc : (fun i => if (vccGet c >>> i.val) &&& 1 ≠ 0 then 65535 else 0 : VectorReg)
      = c.vcc_normal := by
    funext i
    rw [vccGet_bit_lo]
    exact mask_decode (h3 i)
  have hn : (fun i => if (vccGet c >>> (i.val + 8)) &&& 1 ≠ 0 then 65535 else 0 : VectorReg)
      = c.vcc_clip := by
    funext i
    rw [vccGet_bit_hi]
    exact mask_decode (h4 i)
  rw [hc, hn]

theorem set_vce_vceGet (c : SpCop2Context) (h : flagsOK c) : set_vce c (vceGet c) = c := by
  obtain ⟨h1, h2, h3, h4, h5⟩ := h
  unfold set_vce
  have hc : (fun i => if (vceGet c >>> i.val) &&& 1 ≠ 0 then 65535 else 0 : VectorReg)
      = c.vce := by
    funext i
    rw [vceGet_bit]
    exact mask_decode (h5 i)
  rw [hc]

theorem set_vco_mod (c : SpCop2Context) (v : Nat) : set_vco c (v % 65536) = set_vco c v := by
  unfold set_vco
  congr 1
  · funext i
    rw [show (65536:Nat) = 2 ^ 16 from rfl, and1_eq, and1_eq, Nat.testBit_mod_two_pow,
      decide_eq_true (show i.val < 16 by omega), Bool.true_and]
  · funext i
    rw [show (65536:Nat) = 2 ^ 16 from rfl, and1_eq, and1_eq, Nat.testBit_mod_two_pow,
      decide_eq_true (show i.val + 8 < 16 by omega), Bool.true_and]

theorem set_vcc_mod (c : SpCop2Context) (v : Nat) : set_vcc c (v % 65536) = set_vcc c v := by
  unfold set_vcc
  congr 1
  · funext i
    rw [show (65536:Nat) = 2 ^ 16 from rfl, and1_eq, and1_eq, Nat.testBit_mod_two_pow,
      decide_eq_true (show i.val < 16 by omega), Bool.true_and]
  · funext i
    rw [show (65536:Nat) = 2 ^ 16 from rfl, and1_eq, and1_eq, Nat.testBit_mod_two_pow,
      decide_eq_true (show i.val + 8 < 16 by omega), Bool.true_and]

theorem set_vce_mod (c : SpCop2Context) (v : Nat) : set_vce c (v % 256) = set_vce c v := by
  unfold set_vce
  congr 1
  funext i
  rw [show (256:Nat) = 2 ^ 8 from rfl, and1_eq, and1_eq, Nat.testBit_mod_two_pow,
    decide_eq_true (show i.val < 8 by omega), Bool.true_and]

theorem vecOfU128_vecToU128 (r : VectorReg) (hr : ∀ i, r i < 65536) :
    vecOfU128 (vecToU128 r) = r := by
  have h0 := hr 0
  have h1 := hr 1
  have h2 := hr 2
  have h3 := hr 3
  have h4 := hr 4
  have h5 := hr 5
  have h6 := hr 6
  have h7 := hr 7
  funext i
  fin_cases i
  · show vecToU128 r / 2 ^ (16 * (7 - 0)) % 65536 = r 0
    unfold vecToU128; norm_num; omega
  · show vecToU128 r / 2 ^ (16 * (7 - 1)) % 65536 = r 1
    unfold vecToU128; norm_num; omega
  · show vecToU128 r / 2 ^ (16 * (7 - 2)) % 65536 = r 2
    unfold vecToU128; norm_num; omega
  · show vecToU128 r / 2 ^ (16 * (7 - 3)) % 65536 = r 3
    unfold vecToU128; norm_num; omega
  · show vecToU128 r / 2 ^ (16 * (7 - 4)) % 65536 = r 4
    unfold vecToU128; norm_num; omega
  · show vecToU128 r / 2 ^ (16 * (7 - 5)) % 65536 = r 5
    unfold vecToU128; norm_num; omega
  · show vecToU128 r / 2 ^ (16 * (7 - 6)) % 65536 = r 6
    unfold vecToU128; norm_num; omega
  · show vecToU128 r / 2 ^ (16 * (7 - 7)) % 65536 = r 7
    unfold vecToU128; norm_num; omega

/-- Claim C7, amended: for every register index `idx < 38` and every
context satisfying the representation invariant (16-bit lanes in the
vector registers and accumulator, mask-valued flag lanes),
`set_reg idx (reg idx)` is the identity; in particular re-writing the
packed VCO/VCC/VCE values is the identity on such states.  (On states
violating the flag invariant the round trip normalises the flag lanes
instead, see the counterexample.) -/
theorem set_reg_id (c : SpCop2Context) (idx : Nat) (hidx : idx < 38)
    (hb : ∀ r, ∀ i : Fin 8, c.vregs r i < 65536)
    (ha : ∀ a, ∀ i : Fin 8, c.accum a i < 65536)
    (h : flagsOK c) :
    set_reg c idx (regGet c idx) = c := by
  unfold set_reg regGet
  by_cases h32 : idx = 32
  · rw [if_pos h32, if_pos h32, set_vco_mod, set_vco_vcoGet c h]
  rw [if_neg h32, if_neg h32]
  by_cases h33 : idx = 33
  · rw [if_pos h33, if_pos h33, set_vcc_mod, set_vcc_vccGet c h]
  rw [if_neg h33, if_neg h33]
  by_cases h34 : idx = 34
  · rw [if_pos h34, if_pos h34, set_vce_mod, set_vce_vceGet c h]
  rw [if_neg h34, if_neg h34]
  by_cases h35 : idx = 35
  · rw [if_pos h35, if_pos h35, vecOfU128_vecToU128 _ (ha 0), Function.update_eq_self]
  rw [if_neg h35, if_neg h35]
  by_cases h36 : idx = 36
  · rw [if_pos h36, if_pos h36, vecOfU128_vecToU128 _ (ha 1), Function.update_eq_self]
  rw [if_neg h36, if_neg h36]
  by_cases h37 : idx = 37
  · rw [if_pos h37, if_pos h37, vecOfU128_vecToU128 _ (ha 2), Function.update_eq_self]
  rw [if_neg h37, if_neg h37]
  have hlt : idx < 32 := by omega
  rw [dif_pos hlt, dif_pos hlt, vecOfU128_vecToU128 _ (hb _), Function.update_eq_self]

/-- A context outside the flag invariant: `vco_carry` lane 0 holds `1`
(neither `0x0000` nor `0xFFFF`). -/
def ctxC7 : SpCop2Context := { ctx0 with vco_carry := vconst 1 }

/-- Claim C7 as stated (over every coprocessor state) is false: on a
state whose carry lane holds the illegal value `1`, re-writing the
packed VCO normalises the lane to `0xFFFF`, so `set_reg 32 (reg 32)`
is not the identity. -/
theorem set_reg_vco_not_id : set_reg ctxC7 32 (regGet ctxC7 32) ≠ ctxC7 :=
  fun hEq => absurd (congrArg (fun s => s.vco_carry 0) hEq) (by decide)

/-- Witness for the amended C7 at concrete inputs. -/
theorem set_reg_id_witness :
    ((32 : Nat) < 38) ∧ (∀ r, ∀ i : Fin 8, ctx0.vregs r i < 65536) ∧
    (∀ a, ∀ i : Fin 8, ctx0.accum a i < 65536) ∧ flagsOK ctx0 ∧
    set_reg ctx0 32 (regGet ctx0 32) = ctx0 :=
  ⟨by decide, by decide, by decide, by decide,
    set_reg_id ctx0 32 (by decide) (by decide) (by decide) (by decide)⟩

/-! Vector memory operations (claims C6 and C8), translated from the
`lwc`/`swc` arms of the source.  DMEM is a total byte function; the
arms touch only indices below `0x1000`.  `write_partial_right` acts on
the 128-bit view of its destination (little-endian storage for the
register, big-endian for DMEM); `beRead128`/`beWrite128` are
`BigEndian::read_u128`/`write_u128` over 16 DMEM bytes, and
`eaLoad` is the effective-address computation
`(base + (offset << shift)) & 0xFFF` with 32-bit wrap-around.
`wrapSub64` is the release-mode (two's-complement wrapping) semantics
of the `usize` subtraction `ea_idx - element`.  `scaledLoadLoop` is
the `for e in 0..8` byte-gather loop shared by LPV (shift 8, stride
1), LUV (shift 7, stride 1) and LHV (shift 7, stride 2). -/

theorem and15 (x : Nat) : x &&& 15 = x % 16 := Nat.and_pow_two_sub_one_eq_mod x 4

theorem and7 (x : Nat) : x &&& 7 = x % 8 := Nat.and_pow_two_sub_one_eq_mod x 3

theorem and4095 (x : Nat) : x &&& 4095 = x % 4096 := Nat.and_pow_two_sub_one_eq_mod x 12

def eaLoad (base offset shift : Nat) : Nat :=
  ((base + (offset <<< shift)) % 4294967296) &&& 0xFFF

def wrapSub64 (a b : Nat) : Nat :=
  (a + 18446744073709551616 - b % 18446744073709551616) % 18446744073709551616

theorem wrapSub64_mod16 (a b : Nat) (hb : b < 16) :
    wrapSub64 a b &&& 15 = (a + 16 - b) % 16 := by
  unfold wrapSub64
  rw [and15]
  omega

def scaledLoadLoop (d : Nat → Nat) (qs sh stride : Nat) :
    Nat → Nat → Nat → VectorReg → VectorReg
  | 0, _, _, r => r
  | fuel + 1, e, eaIdx, r =>
      scaledLoadLoop d qs sh stride fuel (e + 1) ((eaIdx + stride) &&& 15)
        (setLane r e ((d ((qs + eaIdx) &&& 0xFFF) <<< sh) % 65536))

theorem scaledLoadLoop_lane (d : Nat → Nat) (qs sh stride : Nat) :
    ∀ (fuel e i0 : Nat) (r : VectorReg), i0 < 16 → e + fuel ≤ 8 →
    ∀ k : Fin 8,
      scaledLoadLoop d qs sh stride fuel e i0 r k
        = if e ≤ k.val ∧ k.val < e + fuel
          then (d ((qs + (i0 + stride * (k.val - e)) % 16) &&& 0xFFF) <<< sh) % 65536
          else r k := by
  intro fuel
  induction fuel with
  | zero =>
    intro e i0 r hi he k
    rw [if_neg (by omega)]
    rfl
  | succ n ih =>
    intro e i0 r hi he k
    rw [scaledLoadLoop]
    rw [ih (e + 1) ((i0 + stride) &&& 15) _ (by rw [and15]; omega) (by omega) k]
    by_cases hk1 : k.val < e
    · rw [if_neg (by omega), if_neg (by omega),
        setLane_get_ne _ _ _ _ (by apply Fin.ne_of_val_ne; show k.val ≠ e % 8; omega)]
    by_cases hk2 : k.val = e
    · rw [if_neg (by omega), if_pos (by omega)]
      have hke : k = fin8 e := by
        apply Fin.ext
        show k.val = e % 8
        omega
      rw [hke, setLane_get]
      have hv : (fin8 e).val = e := by
        show e % 8 = e
        omega
      rw [hv, Nat.sub_self, Nat.mul_zero, Nat.add_zero, Nat.mod_eq_of_lt hi]
    by_cases hk3 : k.val < e + (n + 1)
    · rw [if_pos (by omega), if_pos (by omega)]
      have hs : k.val - e = (k.val - (e + 1)) + 1 := by omega
      have hidx : (((i0 + stride) &&& 15) + stride * (k.val - (e + 1))) % 16
          = (i0 + stride * (k.val - e)) % 16 := by
        rw [and15, hs, Nat.mul_add, Nat.mul_one]
        omega
      rw [hidx]
    · rw [if_neg (by omega), if_neg (by omega),
        setLane_get_ne _ _ _ _ (by apply Fin.ne_of_val_ne; show k.val ≠ e % 8; omega)]

def lpvArm (d : Nat → Nat) (r : VectorReg) (base offset element : Nat) : VectorReg :=
  scaledLoadLoop d (eaLoad base offset 3 &&& 0xFF8) 8 1 8 0
    (wrapSub64 (eaLoad base offset 3 &&& 7) element &&& 0xF) r

def luvArm (d : Nat → Nat) (r : VectorReg) (base offset element : Nat) : VectorReg :=
  scaledLoadLoop d (eaLoad base offset 3 &&& 0xFF8) 7 1 8 0
    (wrapSub64 (eaLoad base offset 3 &&& 7) element &&& 0xF) r

def lhvArm (d : Nat → Nat) (r : VectorReg) (base offset element : Nat) : VectorReg :=
  scaledLoadLoop d (eaLoad base offset 4 &&& 0xFF8) 7 2 8 0
    (wrapSub64 (eaLoad base offset 4 &&& 7) element &&& 0xF) r

/-- Claim C8: the LPV/LUV (and stride-2 LHV) loads compute the starting
byte index as `((ea & 7) - element)` with a total, wrapping subtraction
that reduces to `((ea & 7) + 16 - element) % 16`, and each of the 8
loaded bytes advances this index modulo 16 (by the stride); every DMEM
access is masked by `0xFFF`, so the loads never fail. -/
theorem lpv_luv_lhv_index_wrap (d : Nat → Nat) (r : VectorReg) (base offset element : Nat)
    (he : element < 16) :
    (∀ ea : Nat, wrapSub64 (ea &&& 7) element &&& 15 = ((ea &&& 7) + 16 - element) % 16)
  ∧ (∀ k : Fin 8, lpvArm d r base offset element k
      = (d (((eaLoad base offset 3 &&& 0xFF8)
          + (((eaLoad base offset 3 &&& 7) + 16 - element) % 16 + 1 * k.val) % 16) &&& 4095)
          <<< 8) % 65536)
  ∧ (∀ k : Fin 8, luvArm d r base offset element k
      = (d (((eaLoad base offset 3 &&& 0xFF8)
          + (((eaLoad base offset 3 &&& 7) + 16 - element) % 16 + 1 * k.val) % 16) &&& 4095)
          <<< 7) % 65536)
  ∧ (∀ k : Fin 8, lhvArm d r base offset element k
      = (d (((eaLoad base offset 4 &&& 0xFF8)
          + (((eaLoad base offset 4 &&& 7) + 16 - element) % 16 + 2 * k.val) % 16) &&& 4095)
          <<< 7) % 65536) := by
  refine ⟨fun ea => wrapSub64_mod16 _ _ he, fun k => ?_, fun k => ?_, fun k => ?_⟩
  · unfold lpvArm
    rw [scaledLoadLoop_lane d _ 8 1 8 0 _ r (by rw [wrapSub64_mod16 _ _ he]; omega)
        (by omega) k,
      if_pos (by omega), Nat.sub_zero, wrapSub64_mod16 _ _ he]
  · unfold luvArm
    rw [scaledLoadLoop_lane d _ 7 1 8 0 _ r (by rw [wrapSub64_mod16 _ _ he]; omega)
        (by omega) k,
      if_pos (by omega), Nat.sub_zero, wrapSub64_mod16 _ _ he]
  · unfold lhvArm
    rw [scaledLoadLoop_lane d _ 7 2 8 0 _ r (by rw [wrapSub64_mod16 _ _ he]; omega)
        (by omega) k,
      if_pos (by omega), Nat.sub_zero, wrapSub64_mod16 _ _ he]

def beRead128 (d : Nat → Nat) (s : Nat) : Nat :=
  d s * 2 ^ 120 + d (s + 1) * 2 ^ 112 + d (s + 2) * 2 ^ 104 + d (s + 3) * 2 ^ 96 +
  d (s + 4) * 2 ^ 88 + d (s + 5) * 2 ^ 80 + d (s + 6) * 2 ^ 72 + d (s + 7) * 2 ^ 64 +
  d (s + 8) * 2 ^ 56 + d (s + 9) * 2 ^ 48 + d (s + 10) * 2 ^ 40 + d (s + 11) * 2 ^ 32 +
  d (s + 12) * 2 ^ 24 + d (s + 13) * 2 ^ 16 + d (s + 14) * 2 ^ 8 + d (s + 15)

def beWrite128 (d : Nat → Nat) (s v : Nat) : Nat → Nat :=
  fun i => if s ≤ i ∧ i < s + 16 then v / 2 ^ (8 * (15 - (i - s))) % 256 else d i

def writePartRight (dst src : Nat) (skipBits nbits : Nat) : Nat :=
  (dst &&& ((2 ^ 128 - 1) ^^^
      (if skipBits < 128 then (((2 ^ 128 - 1) <<< (128 - nbits)) % 2 ^ 128) >>> skipBits
       else 0))) |||
  ((if skipBits < 128 then src >>> skipBits else 0) &&&
    (if skipBits < 128 then (((2 ^ 128 - 1) <<< (128 - nbits)) % 2 ^ 128) >>> skipBits
     else 0))

def rotl128 (x n : Nat) : Nat :=
  ((x <<< (n % 128)) % 2 ^ 128) ||| ((x % 2 ^ 128) >>> ((128 - n % 128) % 128))

def lqvArm (d : Nat → Nat) (r : VectorReg) (base offset element : Nat) : VectorReg :=
  vecOfU128 (writePartRight (vecToU128 r)
    ((beRead128 d (eaLoad base offset 4 &&& 0xFF0) <<< ((eaLoad base offset 4 &&& 0xF) * 8))
      % 2 ^ 128)
    (element * 8) 128)

def sqvArm (d : Nat → Nat) (r : VectorReg) (base offset element : Nat) : Nat → Nat :=
  beWrite128 d (eaLoad base offset 4 &&& 0xFF0)
    (writePartRight (beRead128 d (eaLoad base offset 4 &&& 0xFF0))
      (rotl128 (vecToU128 r) (element * 8))
      ((eaLoad base offset 4 &&& 0xF) * 8) 128)

theorem writePartRight_full (dst src : Nat) :
    writePartRight dst src 0 128 = src % 2 ^ 128 := by
  unfold writePartRight
  rw [if_pos (by norm_num)]
  norm_num [Nat.shiftLeft_zero, Nat.shiftRight_zero]
  exact Nat.and_pow_two_sub_one_eq_mod src 128

theorem rotl128_zero (x : Nat) : rotl128 x 0 = x % 2 ^ 128 := by
  unfold rotl128
  norm_num [Nat.shiftLeft_zero, Nat.shiftRight_zero]

theorem vecToU128_vecOfU128 (m : Nat) : vecToU128 (vecOfU128 m) = m % 2 ^ 128 := by
  show m / 2 ^ 112 % 65536 * 2 ^ 112 + m / 2 ^ 96 % 65536 * 2 ^ 96 +
    m / 2 ^ 80 % 65536 * 2 ^ 80 + m / 2 ^ 64 % 65536 * 2 ^ 64 +
    m / 2 ^ 48 % 65536 * 2 ^ 48 + m / 2 ^ 32 % 65536 * 2 ^ 32 +
    m / 2 ^ 16 % 65536 * 2 ^ 16 + m / 2 ^ 0 % 65536 = m % 2 ^ 128
  omega

/-- Claim C6: with a 16-byte aligned effective address (base = 0,
offset = 0) and element 0, LQV loads the 16 addressed DMEM bytes into
the register in big-endian lane order (lane `i` is bytes `2i, 2i+1`),
and a following SQV from that register writes the same 16 bytes back,
leaving the addressed DMEM bytes (and all others) unchanged. -/
theorem lqv_sqv_roundtrip (d : Nat → Nat) (r : VectorReg)
    (hd : ∀ i, i < 16 → d i < 256) :
    (∀ i : Fin 8, lqvArm d r 0 0 0 i = d (2 * i.val) * 256 + d (2 * i.val + 1))
  ∧ (∀ i, i < 16 → sqvArm d (lqvArm d r 0 0 0) 0 0 0 i = d i)
  ∧ (∀ i, 16 ≤ i → sqvArm d (lqvArm d r 0 0 0) 0 0 0 i = d i) := by
  have hb0 := hd 0 (by norm_num)
  have hb1 := hd 1 (by norm_num)
  have hb2 := hd 2 (by norm_num)
  have hb3 := hd 3 (by norm_num)
  have hb4 := hd 4 (by norm_num)
  have hb5 := hd 5 (by norm_num)
  have hb6 := hd 6 (by norm_num)
  have hb7 := hd 7 (by norm_num)
  have hb8 := hd 8 (by norm_num)
  have hb9 := hd 9 (by norm_num)
  have hb10 := hd 10 (by norm_num)
  have hb11 := hd 11 (by norm_num)
  have hb12 := hd 12 (by norm_num)
  have hb13 := hd 13 (by norm_num)
  have hb14 := hd 14 (by norm_num)
  have hb15 := hd 15 (by norm_num)
  have hlq : lqvArm d r 0 0 0 = vecOfU128 (beRead128 d 0 % 2 ^ 128) := by
    unfold lqvArm
    rw [show eaLoad 0 0 4 = 0 from rfl, show (0 : Nat) &&& 0xFF0 = 0 from rfl,
      show (0 : Nat) &&& 0xF = 0 from rfl, show (0 : Nat) * 8 = 0 from rfl,
      Nat.shiftLeft_zero, writePartRight_full, Nat.mod_mod_of_dvd _ dvd_rfl]
  refine ⟨fun i => ?_, fun i hi => ?_, fun i hi => ?_⟩
  · rw [hlq]
    show beRead128 d 0 % 2 ^ 128 / 2 ^ (16 * (7 - i.val)) % 65536 = _
    fin_cases i <;> (unfold beRead128; norm_num; omega)
  · unfold sqvArm
    rw [show eaLoad 0 0 4 = 0 from rfl, show (0 : Nat) &&& 0xFF0 = 0 from rfl,
      show (0 : Nat) &&& 0xF = 0 from rfl, show (0 : Nat) * 8 = 0 from rfl,
      hlq, vecToU128_vecOfU128, Nat.mod_mod_of_dvd _ dvd_rfl, rotl128_zero,
      Nat.mod_mod_of_dvd _ dvd_rfl, writePartRight_full, Nat.mod_mod_of_dvd _ dvd_rfl]
    unfold beWrite128
    rw [if_pos (by omega)]
    rw [Nat.sub_zero]
    interval_cases i <;> (unfold beRead128; norm_num; omega)
  · unfold sqvArm beWrite128
    rw [show eaLoad 0 0 4 &&& 0xFF0 = 0 from rfl]
    rw [if_neg (by omega)]

/-- The spec's round-trip scenario bytes `0x00, 0x11, ..., 0xFF`. -/
def dC6 : Nat → Nat := fun i => (i % 16) * 17

/-- Witness for C6 at the spec's concrete scenario. -/
theorem lqv_sqv_roundtrip_witness :
    (∀ i, i < 16 → dC6 i < 256) ∧
    ((∀ i : Fin 8, lqvArm dC6 (vconst 1) 0 0 0 i = dC6 (2 * i.val) * 256 + dC6 (2 * i.val + 1))
    ∧ (∀ i, i < 16 → sqvArm dC6 (lqvArm dC6 (vconst 1) 0 0 0) 0 0 0 i = dC6 i)
    ∧ (∀ i, 16 ≤ i → sqvArm dC6 (lqvArm dC6 (vconst 1) 0 0 0) 0 0 0 i = dC6 i)) :=
  ⟨by decide, lqv_sqv_roundtrip dC6 (vconst 1) (by decide)⟩

def dC8 : Nat → Nat := fun i => i % 256

/-- Witness for C8 at a concrete input with `element > (ea & 7)`, so
the wrapping subtraction is exercised. -/
theorem lpv_luv_lhv_index_wrap_witness :
    ((9 : Nat) < 16) ∧
    ((∀ ea : Nat, wrapSub64 (ea &&& 7) 9 &&& 15 = ((ea &&& 7) + 16 - 9) % 16)
    ∧ (∀ k : Fin 8, lpvArm dC8 (vconst 0) 5 3 9 k
        = (dC8 (((eaLoad 5 3 3 &&& 0xFF8)
            + (((eaLoad 5 3 3 &&& 7) + 16 - 9) % 16 + 1 * k.val) % 16) &&& 4095)
            <<< 8) % 65536)
    ∧ (∀ k : Fin 8, luvArm dC8 (vconst 0) 5 3 9 k
        = (dC8 (((eaLoad 5 3 3 &&& 0xFF8)
            + (((eaLoad 5 3 3 &&& 7) + 16 - 9) % 16 + 1 * k.val) % 16) &&& 4095)
            <<< 7) % 65536)
    ∧ (∀ k : Fin 8, lhvArm dC8 (vconst 0) 5 3 9 k
        = (dC8 (((eaLoad 5 3 4 &&& 0xFF8)
            + (((eaLoad 5 3 4 &&& 7) + 16 - 9) % 16 + 2 * k.val) % 16) &&& 4095)
            <<< 7) % 65536)) :=
  ⟨by decide, lpv_luv_lhv_index_wrap dC8 (vconst 0) 5 3 9 (by decide)⟩
